import Mathlib

/-!
Prefab instancing in `ezDocument` (DocumentPrefab.cpp).

A shallow embedding of the prefab operations of `ezDocument`:
`UpdatePrefabs`, `RevertPrefabs`, `UnlinkPrefabs`, `GetCachedPrefabDocument`,
`GetCachedPrefabGraph`, `CreatePrefabDocumentFromSelection`,
`CreatePrefabDocument`, `ReplaceByPrefab`, `RevertPrefab`,
`UpdatePrefabsRecursive`, `UpdatePrefabObject` and `ReadDocumentAsString`.

The document is an explicit state (`ezDocument`) that every operation takes and
returns.  What the C++ reaches through collaborators that are not part of
DocumentPrefab.cpp is a parameter (`Env`, `DocumentEnv`): the file system, the
virtual `GetDocumentPathFromGuid`, `ezPrefabUtils::Merge`, the root identity
that executing an instantiate command reports back, the graph reader, the
document manager and the seed combination of `ezUuid`.  The command history is the
recorder of the calls made on it (`StartTransaction`, `AddCommand`,
`FinishTransaction`), in call order; what executing a command does to the
subtree it replaces is the business of the command, not of DocumentPrefab.cpp.
The walk of `UpdatePrefabsRecursive` runs on the child arrays it copies on
entry and reads the meta data of a child before any command for that child is
added.

Two further parts of the repository are embedded after the prefab code: the
container `ezArrayMapBase` (ArrayMap.h, whose implementation file is not among
the sources) and `ezTextureAssetDocumentGenerator::GetImportModes`
(TextureAsset.cpp), with its string helpers as a parameter (`PathEnv`).
-/

/-! ## Data model -/

/-- Modelled from the spec: `ezUuid` (its declaration is not among the sources)
is a 128-bit identity, kept as two 64-bit words.  The default-constructed
`ezUuid()` has both words zero and is the one identity that is not valid. -/
structure ezUuid where
  m_uiHigh : Nat
  m_uiLow : Nat
deriving DecidableEq, Repr

namespace ezUuid

/-- The default-constructed `ezUuid()`. -/
def Invalid : ezUuid := ⟨0, 0⟩

/-- The test `ezUuid::IsValid()`. -/
def IsValid (g : ezUuid) : Bool := g.m_uiHigh != 0 || g.m_uiLow != 0

end ezUuid

/-- An object of the document tree: its identity, its type name, its property
values and its children in child-list order (`GetGuid`, `GetTypeAccessor`,
`GetChildren`). -/
inductive ezDocumentObject where
  | mk (m_Guid : ezUuid) (m_sType : String) (m_Properties : List (String × String))
      (m_Children : List ezDocumentObject)
deriving Repr

namespace ezDocumentObject

/-- The accessor `ezDocumentObject::GetGuid()`. -/
def GetGuid : ezDocumentObject → ezUuid
  | .mk g _ _ _ => g

/-- The accessor `ezDocumentObject::GetChildren()`. -/
def GetChildren : ezDocumentObject → List ezDocumentObject
  | .mk _ _ _ cs => cs

end ezDocumentObject

/-- A `const ezDocumentObject*` as the prefab code uses it: the pointee, and
what `GetParent()` yields for it, namely whether the parent is the root object
of the object manager and which identity the parent has. -/
structure ezDocumentObjectPtr where
  m_pObject : ezDocumentObject
  m_bParentIsRoot : Bool
  m_ParentGuid : ezUuid
deriving Repr

namespace ezDocumentObjectPtr

/-- The call `pObject->GetGuid()`. -/
def GetGuid (p : ezDocumentObjectPtr) : ezUuid := p.m_pObject.GetGuid

end ezDocumentObjectPtr

/-- The prefab part of `ezDocumentObjectMetaData`. -/
structure ezDocumentObjectMetaData where
  m_CreateFromPrefab : ezUuid
  m_PrefabSeedGuid : ezUuid
  m_sBasePrefab : String
deriving DecidableEq, Repr

/-- The command `ezRemoveObjectCommand`. -/
structure ezRemoveObjectCommand where
  m_Object : ezUuid
deriving DecidableEq, Repr

/-- The command `ezInstantiatePrefabCommand`, with the fields the prefab code
fills in. -/
structure ezInstantiatePrefabCommand where
  m_bAllowPickedPosition : Bool
  m_CreateFromPrefab : ezUuid
  m_Parent : ezUuid
  m_RemapGuid : ezUuid
  m_sJsonGraph : String
deriving DecidableEq, Repr

/-- A command handed to the command history. -/
inductive ezCommand where
  | Remove (cmd : ezRemoveObjectCommand)
  | Instantiate (cmd : ezInstantiatePrefabCommand)
deriving DecidableEq, Repr

/-- One call made on the command history. -/
inductive ezHistoryEvent where
  | StartTransaction (sDisplayString : String)
  | AddCommand (cmd : ezCommand)
  | FinishTransaction
deriving DecidableEq, Repr

/-- Modelled from the spec: a node of `ezAbstractObjectGraph` (its declaration
is not among the sources) has an identity, a type name and named property
values. -/
structure ezAbstractObjectNode where
  m_Guid : ezUuid
  m_sType : String
  m_Properties : List (String × String)
deriving DecidableEq, Repr

/-- Modelled from the spec: `ezAbstractObjectGraph` owns its nodes, kept in
insertion order. -/
structure ezAbstractObjectGraph where
  m_Nodes : List ezAbstractObjectNode
deriving DecidableEq, Repr

/-- The state of an `ezDocument` that the prefab operations read and write,
together with the log of files opened for reading and the status line shown. -/
structure ezDocument where
  /-- The root object of the object manager. -/
  m_pRootObject : ezDocumentObject
  /-- The store `m_DocumentObjectMetaData`: the meta data read for an identity. -/
  m_DocumentObjectMetaData : ezUuid → ezDocumentObjectMetaData
  /-- The map `m_CachedPrefabDocuments`. -/
  m_CachedPrefabDocuments : List (ezUuid × String)
  /-- The map `m_CachedPrefabGraphs`. -/
  m_CachedPrefabGraphs : List (ezUuid × ezAbstractObjectGraph)
  /-- The calls made on `GetCommandHistory()`, oldest first. -/
  m_CommandHistory : List ezHistoryEvent
  /-- The files `ezFileReader::Open` was called on, oldest first. -/
  m_FileReads : List String
  /-- The messages given to `ShowDocumentStatus`, oldest first. -/
  m_StatusMessages : List String

/-- The collaborators of the prefab code. -/
structure Env where
  /-- The content of the file system at the time of the `n`-th `Open` (counted
  from 0 over the life of the document): `none` when the file cannot be
  opened, otherwise what `ReadAll` delivers. -/
  m_FileSystem : Nat → String → Option String
  /-- The virtual `GetDocumentPathFromGuid`. -/
  GetDocumentPathFromGuid : ezUuid → String
  /-- The function `ezPrefabUtils::Merge(szBase, szNew, pObject, PrefabSeed, out)`,
  as the text it leaves in `out`. -/
  Merge : String → String → ezDocumentObject → ezUuid → String
  /-- The value of `m_CreatedRootObject` after the command was executed. -/
  CreatedRootObject : ezInstantiatePrefabCommand → ezUuid

/-! ## The two cache maps -/

namespace ezMap

variable {V : Type}

/-- The test `Contains(key)`. -/
def Contains (m : List (ezUuid × V)) (key : ezUuid) : Bool :=
  (m.lookup key).isSome

/-- The value stored under `key`, if there is one. -/
def Find (m : List (ezUuid × V)) (key : ezUuid) : Option V :=
  m.lookup key

/-- The assignment `m[key] = value`: the entry is created when it is missing
and overwritten otherwise. -/
def Assign : List (ezUuid × V) → ezUuid → V → List (ezUuid × V)
  | [], key, value => [(key, value)]
  | (k, v) :: rest, key, value =>
    if key == k then (k, value) :: rest else (k, v) :: Assign rest key value

/-- The read `m[key]`: the value stored under `key`; a missing entry is
created with the default value. -/
def Index (dflt : V) (m : List (ezUuid × V)) (key : ezUuid) : V × List (ezUuid × V) :=
  match m.lookup key with
  | some v => (v, m)
  | none => (dflt, Assign m key dflt)

end ezMap

/-! ## The operations of DocumentPrefab.cpp -/

namespace ezDocument

/-- The call `GetCommandHistory()->StartTransaction(label)`. -/
def StartTransaction (sLabel : String) (d : ezDocument) : ezDocument :=
  { d with m_CommandHistory := d.m_CommandHistory ++ [ezHistoryEvent.StartTransaction sLabel] }

/-- The call `GetCommandHistory()->AddCommand(cmd)`: the command is recorded. -/
def AddCommand (cmd : ezCommand) (d : ezDocument) : ezDocument :=
  { d with m_CommandHistory := d.m_CommandHistory ++ [ezHistoryEvent.AddCommand cmd] }

/-- The call `GetCommandHistory()->FinishTransaction()`. -/
def FinishTransaction (d : ezDocument) : ezDocument :=
  { d with m_CommandHistory := d.m_CommandHistory ++ [ezHistoryEvent.FinishTransaction] }

/-- The call `ShowDocumentStatus(msg)`. -/
def ShowDocumentStatus (sMsg : String) (d : ezDocument) : ezDocument :=
  { d with m_StatusMessages := d.m_StatusMessages ++ [sMsg] }

/-- The function `ezDocument::ReadDocumentAsString`: the empty string when the
file cannot be opened, the whole content otherwise. -/
def ReadDocumentAsString (env : Env) (szFile : String) (d : ezDocument) : String × ezDocument :=
  let d1 := { d with m_FileReads := d.m_FileReads ++ [szFile] }
  match env.m_FileSystem d.m_FileReads.length szFile with
  | none => ("", d1)
  | some sGraph => (sGraph, d1)

/-- The function `ezDocument::GetCachedPrefabDocument`. -/
def GetCachedPrefabDocument (env : Env) (documentGuid : ezUuid) (d : ezDocument) :
    String × ezDocument :=
  let d1 :=
    if !ezMap.Contains d.m_CachedPrefabDocuments documentGuid then
      let sPrefabFile := env.GetDocumentPathFromGuid documentGuid
      let r := ReadDocumentAsString env sPrefabFile d
      { r.2 with m_CachedPrefabDocuments :=
          ezMap.Assign r.2.m_CachedPrefabDocuments documentGuid r.1 }
    else d
  let r := ezMap.Index "" d1.m_CachedPrefabDocuments documentGuid
  (r.1, { d1 with m_CachedPrefabDocuments := r.2 })

/-- The value of `m_Parent` that the three replacing operations compute:
`pObject->GetParent() == GetObjectManager()->GetRootObject() ? ezUuid() :
pObject->GetParent()->GetGuid()`. -/
def InstantiateParent (pObject : ezDocumentObjectPtr) : ezUuid :=
  if pObject.m_bParentIsRoot then ezUuid.Invalid else pObject.m_ParentGuid

/-- The function `ezDocument::UpdatePrefabObject`. -/
def UpdatePrefabObject (env : Env) (pObject : ezDocumentObjectPtr) (PrefabAsset PrefabSeed : ezUuid)
    (szBasePrefab : String) (d : ezDocument) : ezDocument :=
  let r := GetCachedPrefabDocument env PrefabAsset d
  let sNewPrefab := r.1
  let sNewGraph := env.Merge szBasePrefab sNewPrefab pObject.m_pObject PrefabSeed
  let rm : ezRemoveObjectCommand := { m_Object := pObject.GetGuid }
  let inst : ezInstantiatePrefabCommand :=
    { m_bAllowPickedPosition := false
      m_CreateFromPrefab := PrefabAsset
      m_Parent := InstantiateParent pObject
      m_RemapGuid := PrefabSeed
      m_sJsonGraph := sNewGraph }
  AddCommand (ezCommand.Instantiate inst) (AddCommand (ezCommand.Remove rm) r.2)

mutual

/-- The function `ezDocument::UpdatePrefabsRecursive`; `bIsRoot` tells whether
`pObject` is the root object of the object manager. -/
def UpdatePrefabsRecursive (env : Env) (bIsRoot : Bool) :
    ezDocumentObject → ezDocument → ezDocument
  | .mk g _ _ ChildArray, d => UpdatePrefabsChildren env bIsRoot g ChildArray d

/-- The loop of `UpdatePrefabsRecursive` over the copied child array of the
object with identity `parentGuid`. -/
def UpdatePrefabsChildren (env : Env) (bParentIsRoot : Bool) (parentGuid : ezUuid) :
    List ezDocumentObject → ezDocument → ezDocument
  | [], d => d
  | pChild :: rest, d =>
    let pMeta := d.m_DocumentObjectMetaData pChild.GetGuid
    let PrefabAsset := pMeta.m_CreateFromPrefab
    let PrefabSeed := pMeta.m_PrefabSeedGuid
    let sPrefabBase := pMeta.m_sBasePrefab
    let d1 :=
      if PrefabAsset.IsValid then
        UpdatePrefabObject env ⟨pChild, bParentIsRoot, parentGuid⟩ PrefabAsset PrefabSeed
          sPrefabBase d
      else
        UpdatePrefabsRecursive env false pChild d
    UpdatePrefabsChildren env bParentIsRoot parentGuid rest d1

end

/-- The function `ezDocument::UpdatePrefabs`. -/
def UpdatePrefabs (env : Env) (d : ezDocument) : ezDocument :=
  let d1 := { d with m_CachedPrefabDocuments := [], m_CachedPrefabGraphs := [] }
  let d2 := StartTransaction "Update Prefabs" d1
  let d3 := UpdatePrefabsRecursive env true d2.m_pRootObject d2
  let d4 := FinishTransaction d3
  ShowDocumentStatus "Prefabs have been updated" d4

/-- The function `ezDocument::RevertPrefab`. -/
def RevertPrefab (env : Env) (pObject : ezDocumentObjectPtr) (d : ezDocument) :
    ezUuid × ezDocument :=
  let pMeta := d.m_DocumentObjectMetaData pObject.GetGuid
  let PrefabAsset := pMeta.m_CreateFromPrefab
  if !PrefabAsset.IsValid then
    (ezUuid.Invalid, d)
  else
    let remCmd : ezRemoveObjectCommand := { m_Object := pObject.GetGuid }
    let r := GetCachedPrefabDocument env pMeta.m_CreateFromPrefab d
    let instCmd : ezInstantiatePrefabCommand :=
      { m_bAllowPickedPosition := false
        m_CreateFromPrefab := PrefabAsset
        m_Parent := InstantiateParent pObject
        m_RemapGuid := pMeta.m_PrefabSeedGuid
        m_sJsonGraph := r.1 }
    (env.CreatedRootObject instCmd,
      AddCommand (ezCommand.Instantiate instCmd) (AddCommand (ezCommand.Remove remCmd) r.2))

/-- The function `ezDocument::RevertPrefabs`. -/
def RevertPrefabs (env : Env) (Selection : List ezDocumentObjectPtr) (d : ezDocument) :
    ezDocument :=
  if Selection.isEmpty then d
  else
    let d1 := { d with m_CachedPrefabDocuments := [], m_CachedPrefabGraphs := [] }
    let d2 := StartTransaction "Revert Prefab" d1
    let d3 := Selection.foldl (fun acc pItem => (RevertPrefab env pItem acc).2) d2
    FinishTransaction d3

/-- The body of the loop of `ezDocument::UnlinkPrefabs`, for one selected
object: `BeginModifyMetaData`, the three assignments, `EndModifyMetaData`. -/
def UnlinkPrefabsObject (pObject : ezDocumentObjectPtr) (d : ezDocument) : ezDocument :=
  let pMetaDoc := d.m_DocumentObjectMetaData pObject.GetGuid
  let pMetaDoc1 :=
    { pMetaDoc with
      m_CreateFromPrefab := ezUuid.Invalid
      m_PrefabSeedGuid := ezUuid.Invalid
      m_sBasePrefab := "" }
  { d with m_DocumentObjectMetaData := fun g =>
      if g = pObject.GetGuid then pMetaDoc1 else d.m_DocumentObjectMetaData g }

/-- The function `ezDocument::UnlinkPrefabs`. -/
def UnlinkPrefabs (Selection : List ezDocumentObjectPtr) (d : ezDocument) : ezDocument :=
  if Selection.isEmpty then d
  else Selection.foldl (fun acc pObject => UnlinkPrefabsObject pObject acc) d

end ezDocument

/-! ## Specification-side definitions -/

/-- Whether the meta data of the object carries a valid template identity. -/
def HasValidTemplate (md : ezUuid → ezDocumentObjectMetaData) (o : ezDocumentObject) : Bool :=
  (md o.GetGuid).m_CreateFromPrefab.IsValid

/-- The object reached from `o` by following the child indices of `path`. -/
def ObjectAt : ezDocumentObject → List Nat → Option ezDocumentObject
  | o, [] => some o
  | o, i :: rest =>
    match o.GetChildren[i]? with
    | some c => ObjectAt c rest
    | none => none

/-- The spec's description of an updated object, for the object `o` at `path`
below `root`: it lies below the root, carries a valid template identity, and
no proper ancestor of it below the root carries one. -/
def IsTopLevelInstanceAt (md : ezUuid → ezDocumentObjectMetaData) (root : ezDocumentObject)
    (path : List Nat) (o : ezDocumentObject) : Prop :=
  path ≠ [] ∧ ObjectAt root path = some o ∧ HasValidTemplate md o = true ∧
    ∀ k a, 0 < k → k < path.length → ObjectAt root (path.take k) = some a →
      HasValidTemplate md a = false

mutual

/-- The spec's `WalkTree` (§4.5), as the list of instances it hands to
`UpdateOne`: pre-order, an object with a valid template identity is listed and
its children are not walked, any other object has its children walked. -/
def WalkTree (md : ezUuid → ezDocumentObjectMetaData) (bIsRoot : Bool) :
    ezDocumentObject → List ezDocumentObjectPtr
  | .mk g _ _ cs => WalkTreeChildren md bIsRoot g cs

/-- The spec's `WalkTree` over the children of one object, in child-list order. -/
def WalkTreeChildren (md : ezUuid → ezDocumentObjectMetaData) (bParentIsRoot : Bool)
    (parentGuid : ezUuid) : List ezDocumentObject → List ezDocumentObjectPtr
  | [] => []
  | c :: rest =>
    (if HasValidTemplate md c then [⟨c, bParentIsRoot, parentGuid⟩]
     else WalkTree md false c) ++ WalkTreeChildren md bParentIsRoot parentGuid rest

end

/-- The text the raw-content cache `c` holds for `g` (empty when it holds none). -/
def CachedText (c : List (ezUuid × String)) (g : ezUuid) : String :=
  (c.lookup g).getD ""

/-- What a read of the template file of `g` delivers at the `n`-th `Open`. -/
def ReadResult (env : Env) (n : Nat) (g : ezUuid) : String :=
  (env.m_FileSystem n (env.GetDocumentPathFromGuid g)).getD ""

/-- The Remove command for the instance `p`. -/
def RemoveOf (p : ezDocumentObjectPtr) : ezHistoryEvent :=
  .AddCommand (.Remove { m_Object := p.GetGuid })

/-- The Instantiate command for the instance `p` with graph text `sGraph`,
carrying the template identity and seed of the meta data of `p`. -/
def InstantiateOf (md : ezUuid → ezDocumentObjectMetaData) (p : ezDocumentObjectPtr)
    (sGraph : String) : ezHistoryEvent :=
  .AddCommand (.Instantiate
    { m_bAllowPickedPosition := false
      m_CreateFromPrefab := (md p.GetGuid).m_CreateFromPrefab
      m_Parent := ezDocument.InstantiateParent p
      m_RemapGuid := (md p.GetGuid).m_PrefabSeedGuid
      m_sJsonGraph := sGraph })

/-- The output of the merge for the instance `p` when the new template text
is `sNew`: base snapshot and seed are those of the meta data of `p`. -/
def MergeOutput (env : Env) (md : ezUuid → ezDocumentObjectMetaData) (p : ezDocumentObjectPtr)
    (sNew : String) : String :=
  env.Merge (md p.GetGuid).m_sBasePrefab sNew p.m_pObject (md p.GetGuid).m_PrefabSeedGuid

/-- The pair of commands of one update of the instance `p`, the new template
text taken from the raw-content cache `c`. -/
def UpdatePair (env : Env) (md : ezUuid → ezDocumentObjectMetaData) (c : List (ezUuid × String))
    (p : ezDocumentObjectPtr) : List ezHistoryEvent :=
  [RemoveOf p,
   InstantiateOf md p (MergeOutput env md p (CachedText c (md p.GetGuid).m_CreateFromPrefab))]

/-- The events a call appends to the command history of `before`. -/
def NewEvents (before after : ezDocument) : List ezHistoryEvent :=
  after.m_CommandHistory.drop before.m_CommandHistory.length

/-- What one step of the walk may do to the document: it appends the update
pairs of `insts` to the command history, only adds entries to the
raw-content cache, each read from storage during the step, and leaves the rest
of the document alone. -/
structure Walked (env : Env) (insts : List ezDocumentObjectPtr) (d d' : ezDocument) : Prop where
  root_eq : d'.m_pRootObject = d.m_pRootObject
  meta_eq : d'.m_DocumentObjectMetaData = d.m_DocumentObjectMetaData
  graphs_eq : d'.m_CachedPrefabGraphs = d.m_CachedPrefabGraphs
  status_eq : d'.m_StatusMessages = d.m_StatusMessages
  reads_le : d.m_FileReads.length ≤ d'.m_FileReads.length
  cache_mono : ∀ g v, d.m_CachedPrefabDocuments.lookup g = some v →
    d'.m_CachedPrefabDocuments.lookup g = some v
  cached : ∀ p ∈ insts, ∃ v, d'.m_CachedPrefabDocuments.lookup
    (d.m_DocumentObjectMetaData p.GetGuid).m_CreateFromPrefab = some v
  fresh : ∀ g v, d'.m_CachedPrefabDocuments.lookup g = some v →
    d.m_CachedPrefabDocuments.lookup g = some v ∨
      ∃ n, d.m_FileReads.length ≤ n ∧ n < d'.m_FileReads.length ∧ v = ReadResult env n g
  history_eq : d'.m_CommandHistory =
    d.m_CommandHistory ++
      insts.flatMap (UpdatePair env d.m_DocumentObjectMetaData d'.m_CachedPrefabDocuments)

/-- What a call may do to the caches: the parsed-graph cache stays as it is,
and every entry of the raw-content cache afterwards was either there before or
was read from storage during the call. -/
structure Refreshed (env : Env) (d d' : ezDocument) : Prop where
  graphs_eq : d'.m_CachedPrefabGraphs = d.m_CachedPrefabGraphs
  reads_le : d.m_FileReads.length ≤ d'.m_FileReads.length
  cache_mono : ∀ g v, d.m_CachedPrefabDocuments.lookup g = some v →
    d'.m_CachedPrefabDocuments.lookup g = some v
  fresh : ∀ g v, d'.m_CachedPrefabDocuments.lookup g = some v →
    d.m_CachedPrefabDocuments.lookup g = some v ∨
      ∃ n, d.m_FileReads.length ≤ n ∧ n < d'.m_FileReads.length ∧ v = ReadResult env n g

/-! ## A sample document -/

namespace Sample

/-- Identity of the instance `A`, a direct child of the root. -/
def gA : ezUuid := ⟨0, 1⟩
/-- Identity of the instance `B`, a child of the plain object `P`. -/
def gB : ezUuid := ⟨0, 2⟩
/-- Identity of the instance `C`, nested inside the instance `A`. -/
def gC : ezUuid := ⟨0, 3⟩
/-- Identity of the plain object `P`, a direct child of the root. -/
def gP : ezUuid := ⟨0, 4⟩
/-- Identity of the instance `D`, a direct child of the root. -/
def gD : ezUuid := ⟨0, 5⟩
/-- Identity of the template of `A`; its file cannot be opened. -/
def tA : ezUuid := ⟨1, 0⟩
/-- Identity of the template of `B`, `C` and `D`; its file can be read. -/
def tB : ezUuid := ⟨2, 0⟩
/-- Seed of `A`. -/
def sA : ezUuid := ⟨5, 1⟩
/-- Seed of `B`. -/
def sB : ezUuid := ⟨5, 2⟩
/-- Seed of `C`. -/
def sC : ezUuid := ⟨5, 3⟩

/-- Seed of `D`. -/
def sD : ezUuid := ⟨5, 4⟩

/-- The object `C`. -/
def objC : ezDocumentObject := .mk gC "ezGameObject" [("Name", "C")] []
/-- The object `A`, with the nested instance `C` below it. -/
def objA : ezDocumentObject := .mk gA "ezGameObject" [("Name", "A")] [objC]
/-- The object `B`. -/
def objB : ezDocumentObject := .mk gB "ezGameObject" [("Name", "B")] []
/-- The object `P`, with the instance `B` below it. -/
def objP : ezDocumentObject := .mk gP "ezGameObject" [("Name", "P")] [objB]
/-- The object `D`. -/
def objD : ezDocumentObject := .mk gD "ezGameObject" [("Name", "D")] []
/-- The root object, with the children `A`, `P` and `D`. -/
def root : ezDocumentObject := .mk ezUuid.Invalid "ezDocumentRoot" [] [objA, objP, objD]

/-- The meta data: `A` comes from `tA`; `B`, `C` and `D` come from `tB`; `P`
comes from no template. -/
def metaData : ezUuid → ezDocumentObjectMetaData := fun g =>
  if g = gA then ⟨tA, sA, "baseA"⟩
  else if g = gB then ⟨tB, sB, "baseB"⟩
  else if g = gC then ⟨tB, sC, "baseC"⟩
  else if g = gD then ⟨tB, sD, "baseD"⟩
  else ⟨ezUuid.Invalid, ezUuid.Invalid, ""⟩

/-- The document, with both caches filled by an earlier operation. -/
def doc : ezDocument :=
  { m_pRootObject := root
    m_DocumentObjectMetaData := metaData
    m_CachedPrefabDocuments := [(tB, "oldB")]
    m_CachedPrefabGraphs := [(tB, ⟨[]⟩)]
    m_CommandHistory := [ezHistoryEvent.StartTransaction "Earlier", ezHistoryEvent.FinishTransaction]
    m_FileReads := ["b.ezPrefab"]
    m_StatusMessages := [] }

/-- The collaborators: only the file of `tB` can be read, the merge output
shows the two texts it was given. -/
def env : Env :=
  { m_FileSystem := fun _ szFile => if szFile = "b.ezPrefab" then some "newB" else none
    GetDocumentPathFromGuid := fun g => if g = tB then "b.ezPrefab" else "a.ezPrefab"
    Merge := fun szBase szNew _ _ => szBase ++ "+" ++ szNew
    CreatedRootObject := fun cmd => cmd.m_RemapGuid }

/-- The pointer to `A`. -/
def ptrA : ezDocumentObjectPtr := ⟨objA, true, ezUuid.Invalid⟩
/-- The pointer to `B`. -/
def ptrB : ezDocumentObjectPtr := ⟨objB, false, gP⟩
/-- The pointer to `D`. -/
def ptrD : ezDocumentObjectPtr := ⟨objD, true, ezUuid.Invalid⟩
/-- The pointer to `P`. -/
def ptrP : ezDocumentObjectPtr := ⟨objP, true, ezUuid.Invalid⟩

end Sample

/-! ## The graph cache, `ReplaceByPrefab` and the creation of a prefab document -/

namespace ezDocumentObject

/-- The type of the object, `GetTypeAccessor().GetType()`, by its name. -/
def GetType : ezDocumentObject → String
  | .mk _ t _ _ => t

end ezDocumentObject

/-- The result type `ezStatus`: `ezStatus(EZ_SUCCESS)` succeeds, `ezStatus("...")`
fails with the message. -/
structure ezStatus where
  /-- `true` for `EZ_SUCCESS`, `false` for `EZ_FAILURE`. -/
  m_Result : Bool
  m_sMessage : String
deriving DecidableEq, Repr

namespace ezStatus

/-- The test `m_Result.Succeeded()`. -/
def Succeeded (s : ezStatus) : Bool := s.m_Result

/-- The test `m_Result.Failed()`. -/
def Failed (s : ezStatus) : Bool := !s.m_Result

/-- The status `ezStatus("...")`. -/
def Error (sMessage : String) : ezStatus := ⟨false, sMessage⟩

end ezStatus

/-- The prefab document `CreatePrefabDocument` builds before it saves it: the
file, the identity of the document, the identity and type of the main object
it creates below the root, and the graph and main node whose properties it
applies to the main object. -/
structure ezPrefabDocument where
  m_sFile : String
  m_Guid : ezUuid
  m_MainObjectGuid : ezUuid
  m_sMainObjectType : String
  m_Graph : ezAbstractObjectGraph
  m_pMainNode : Option ezAbstractObjectNode
deriving DecidableEq, Repr

/-- One call made on the document manager (`pTypeDesc->m_pManager`) or on the
document it created. -/
inductive ezDocumentManagerCall where
  | EnsureDocumentIsClosed (szFile : String)
  | CreateDocument (szDocumentTypeName szFile : String)
  | SaveDocument (doc : ezPrefabDocument)
  | CloseDocument (szFile : String)
deriving DecidableEq, Repr

/-- The further collaborators of the prefab code. -/
structure DocumentEnv extends Env where
  /-- The function `ezPrefabUtils::LoadGraph(graph, szText)`, as the graph it leaves. -/
  LoadGraph : String → ezAbstractObjectGraph
  /-- Whether `ezDocumentManager::FindDocumentTypeFromPath` succeeds for the file. -/
  FindDocumentTypeFromPath : String → Bool
  /-- Whether `EnsureDocumentIsClosed` succeeds for the file. -/
  EnsureDocumentIsClosed : String → Bool
  /-- The status of `CreateDocument(szDocumentTypeName, szFile, ...)` and the
  identity of the document it creates. -/
  CreateDocument : String → String → ezStatus × ezUuid
  /-- The status of `SaveDocument()` on the prefab document. -/
  SaveDocument : ezPrefabDocument → ezStatus
  /-- The identity `CreateNewUuid()` produces. -/
  CreateNewUuid : ezUuid
  /-- The identity after `CombineWithSeed(seed)`, the forward remap. -/
  CombineWithSeed : ezUuid → ezUuid → ezUuid
  /-- The identity after `RevertCombinationWithSeed(seed)`, the reverse remap. -/
  RevertCombinationWithSeed : ezUuid → ezUuid → ezUuid

mutual

/-- Modelled from the spec: `ezDocumentObjectConverterWriter::AddObjectToGraph`
is not among the sources.  It "serializes the selected subtree to a graph":
one node for every object of the subtree, with the identity, the type and the
properties of the object; the node of the object itself comes first. -/
def AddObjectToGraph : ezDocumentObject → List ezAbstractObjectNode
  | .mk g t ps cs => ⟨g, t, ps⟩ :: AddChildrenToGraph cs

/-- The nodes of the subtrees of a child list, in child-list order. -/
def AddChildrenToGraph : List ezDocumentObject → List ezAbstractObjectNode
  | [] => []
  | c :: rest => AddObjectToGraph c ++ AddChildrenToGraph rest

end

/-- Modelled from the spec: `ezAbstractObjectGraph::ReMapNodeGuids(seed, bInverse)`
is not among the sources.  Forward, "every node identity in the cloned template
graph is remapped with the instance's seed"; with `bInverse` every node
identity is reverse-remapped. -/
def ReMapNodeGuids (env : DocumentEnv) (graph : ezAbstractObjectGraph) (seed : ezUuid)
    (bInverse : Bool) : ezAbstractObjectGraph :=
  { m_Nodes := graph.m_Nodes.map fun n =>
      { n with m_Guid :=
          if bInverse then env.RevertCombinationWithSeed n.m_Guid seed
          else env.CombineWithSeed n.m_Guid seed } }

namespace ezDocument

/-- The function `ezDocument::GetCachedPrefabGraph`; `none` is the null pointer. -/
def GetCachedPrefabGraph (env : DocumentEnv) (documentGuid : ezUuid) (d : ezDocument) :
    Option ezAbstractObjectGraph × ezDocument :=
  if ezMap.Contains d.m_CachedPrefabGraphs documentGuid then
    (ezMap.Find d.m_CachedPrefabGraphs documentGuid, d)
  else
    let r := GetCachedPrefabDocument env.toEnv documentGuid d
    let sPrefabFile := r.1
    if sPrefabFile = "" then
      (none, r.2)
    else
      let graph := env.LoadGraph sPrefabFile
      (some graph,
        { r.2 with m_CachedPrefabGraphs :=
            ezMap.Assign r.2.m_CachedPrefabGraphs documentGuid graph })

/-- The function `ezDocument::ReplaceByPrefab`. -/
def ReplaceByPrefab (env : Env) (pRootObject : ezDocumentObjectPtr) (szPrefabFile : String)
    (PrefabAsset PrefabSeed : ezUuid) (d : ezDocument) : ezUuid × ezDocument :=
  let d1 := StartTransaction "Replace by Prefab" d
  let remCmd : ezRemoveObjectCommand := { m_Object := pRootObject.GetGuid }
  let r := ReadDocumentAsString env szPrefabFile d1
  let instCmd : ezInstantiatePrefabCommand :=
    { m_bAllowPickedPosition := false
      m_CreateFromPrefab := PrefabAsset
      m_Parent := InstantiateParent pRootObject
      m_sJsonGraph := r.1
      m_RemapGuid := PrefabSeed }
  let d2 := AddCommand (ezCommand.Remove remCmd) r.2
  let d3 := AddCommand (ezCommand.Instantiate instCmd) d2
  let d4 := FinishTransaction d3
  (env.CreatedRootObject instCmd, d4)

/-- The function `ezDocument::CreatePrefabDocument`; it only reads the edited
document (the subtree of `pSaveAsPrefab`), so what it takes and returns besides
the status is the value of `out_NewDocumentGuid` and the calls made on the
document manager. -/
def CreatePrefabDocument (env : DocumentEnv) (szFile : String)
    (pSaveAsPrefab : ezDocumentObjectPtr) (invPrefabSeed : ezUuid) (out_NewDocumentGuid : ezUuid)
    (mgr : List ezDocumentManagerCall) : ezStatus × ezUuid × List ezDocumentManagerCall :=
  let pRootType := pSaveAsPrefab.m_pObject.GetType
  if !env.FindDocumentTypeFromPath szFile then
    (ezStatus.Error ("Document type is unknown: '" ++ szFile ++ "'"), out_NewDocumentGuid, mgr)
  else
    let mgr1 := mgr ++ [ezDocumentManagerCall.EnsureDocumentIsClosed szFile]
    if !env.EnsureDocumentIsClosed szFile then
      (ezStatus.Error "Could not close the existing prefab document", out_NewDocumentGuid, mgr1)
    else
      let PrefabGraph : ezAbstractObjectGraph := ⟨AddObjectToGraph pSaveAsPrefab.m_pObject⟩
      let PrefabGraph1 := ReMapNodeGuids env PrefabGraph invPrefabSeed true
      let pPrefabGraphMainNode := PrefabGraph1.m_Nodes.head?
      let res := env.CreateDocument "ezPrefab" szFile
      let mgr2 := mgr1 ++ [ezDocumentManagerCall.CreateDocument "ezPrefab" szFile]
      if res.1.Failed then
        (res.1, out_NewDocumentGuid, mgr2)
      else
        let rootGuid := env.RevertCombinationWithSeed pSaveAsPrefab.GetGuid invPrefabSeed
        let pSceneDocument : ezPrefabDocument :=
          { m_sFile := szFile
            m_Guid := res.2
            m_MainObjectGuid := rootGuid
            m_sMainObjectType := pRootType
            m_Graph := PrefabGraph1
            m_pMainNode := pPrefabGraphMainNode }
        let res1 := env.SaveDocument pSceneDocument
        let mgr3 := mgr2 ++ [ezDocumentManagerCall.SaveDocument pSceneDocument,
          ezDocumentManagerCall.CloseDocument szFile]
        (res1, res.2, mgr3)

/-- The function `ezDocument::CreatePrefabDocumentFromSelection`; `Selection` is
what `GetSelectionManager()->GetTopLevelSelection(pRootType)` returns. -/
def CreatePrefabDocumentFromSelection (env : DocumentEnv) (szFile : String)
    (Selection : List ezDocumentObjectPtr) (d : ezDocument) (mgr : List ezDocumentManagerCall) :
    ezStatus × ezDocument × List ezDocumentManagerCall :=
  if Selection.length ≠ 1 then
    (ezStatus.Error "To create a prefab, the selection must contain exactly one game object",
      d, mgr)
  else
    match Selection.head? with
    | none =>
      (ezStatus.Error "To create a prefab, the selection must contain exactly one game object",
        d, mgr)
    | some pNode =>
      let SeedGuid := env.CreateNewUuid
      let r := CreatePrefabDocument env szFile pNode SeedGuid ezUuid.Invalid mgr
      let res := r.1
      let PrefabGuid := r.2.1
      if res.Succeeded then
        (res, (ReplaceByPrefab env.toEnv pNode szFile PrefabGuid SeedGuid d).2, r.2.2)
      else
        (res, d, r.2.2)

end ezDocument

/-! ## The property rule of the merge -/

/-- Modelled from the spec: `ezPrefabUtils::Merge` is not among the sources.
For a node present in the instance and the base, "for each property, if the
Instance value differs from the Base value (a user override), keep the Instance
value; otherwise take the New value". -/
def MergeProperty (baseValue newValue instanceValue : String) : String :=
  if instanceValue ≠ baseValue then instanceValue else newValue

/-- Modelled from the spec: `ezPrefabUtils::Merge` is not among the sources.
The merged node for a node present in the base template `b`, the new template
`n` and the instance `i`: the node of the new template, the value of each of
its properties decided by `MergeProperty`.  A property the instance does not
hold keeps the value of the new template, a property the base does not hold
counts as overridden by the instance. -/
def MergeNode (b n i : ezAbstractObjectNode) : ezAbstractObjectNode :=
  { n with m_Properties := n.m_Properties.map fun pv =>
      (pv.1,
        match i.m_Properties.lookup pv.1, b.m_Properties.lookup pv.1 with
        | some vi, some vb => MergeProperty vb pv.2 vi
        | some vi, none => vi
        | none, _ => pv.2) }

namespace Sample

/-- The further collaborators: every document type is known, nothing is open,
documents are created with the identity `tB` and saved, the new seed is `sD`,
and the seed is combined by the bitwise exclusive or of the words. -/
def docEnv : DocumentEnv :=
  { toEnv := env
    LoadGraph := fun szText => ⟨[⟨ezUuid.Invalid, szText, []⟩]⟩
    FindDocumentTypeFromPath := fun _ => true
    EnsureDocumentIsClosed := fun _ => true
    CreateDocument := fun _ _ => (⟨true, ""⟩, tB)
    SaveDocument := fun _ => ⟨true, ""⟩
    CreateNewUuid := sD
    CombineWithSeed := fun g s => ⟨g.m_uiHigh ^^^ s.m_uiHigh, g.m_uiLow ^^^ s.m_uiLow⟩
    RevertCombinationWithSeed := fun g s => ⟨g.m_uiHigh ^^^ s.m_uiHigh, g.m_uiLow ^^^ s.m_uiLow⟩ }

/-- The collaborators when the prefab document cannot be saved. -/
def docEnvSaveFails : DocumentEnv :=
  { docEnv with SaveDocument := fun _ => ezStatus.Error "disk full" }

/-- The base node with `P = 5`. -/
def nodeBase : ezAbstractObjectNode := ⟨gA, "ezGameObject", [("P", "5")]⟩
/-- The new node with `P = 7`. -/
def nodeNew : ezAbstractObjectNode := ⟨gA, "ezGameObject", [("P", "7")]⟩
/-- The instance node with `P = 9`. -/
def nodeInstance : ezAbstractObjectNode := ⟨gA, "ezGameObject", [("P", "9")]⟩

end Sample

/-- The prefab document `CreatePrefabDocument` hands to `SaveDocument` when it
gets that far, for the object `pSaveAsPrefab` and the seed `invPrefabSeed`. -/
def PrefabDocumentFor (env : DocumentEnv) (szFile : String) (pSaveAsPrefab : ezDocumentObjectPtr)
    (invPrefabSeed : ezUuid) : ezPrefabDocument :=
  { m_sFile := szFile
    m_Guid := (env.CreateDocument "ezPrefab" szFile).2
    m_MainObjectGuid := env.RevertCombinationWithSeed pSaveAsPrefab.GetGuid invPrefabSeed
    m_sMainObjectType := pSaveAsPrefab.m_pObject.GetType
    m_Graph := ReMapNodeGuids env ⟨AddObjectToGraph pSaveAsPrefab.m_pObject⟩ invPrefabSeed true
    m_pMainNode :=
      (ReMapNodeGuids env ⟨AddObjectToGraph pSaveAsPrefab.m_pObject⟩ invPrefabSeed true).m_Nodes.head? }

/-! ## `ezArrayMapBase` (ArrayMap.h) -/

/-- The key/value pair `ezArrayMapBase::Pair`. -/
structure ezArrayMapBase.Pair (KEY VALUE : Type) where
  key : KEY
  value : VALUE
deriving DecidableEq, Repr

/-- The data members of `ezArrayMapBase`: the flag `m_bSorted` and the array
`m_Data`. -/
structure ezArrayMapBase (KEY VALUE : Type) where
  m_bSorted : Bool
  m_Data : List (ezArrayMapBase.Pair KEY VALUE)
deriving Repr

namespace ezArrayMapBase

variable {KEY VALUE : Type} [LinearOrder KEY]

/-- Modelled from the spec: the implementation of `ezArrayMapBase` (ArrayMap_inl.h)
is not among the sources, the model follows the documentation of its
declaration.  `GetCount` "returns the number of elements stored in the map". -/
def GetCount (m : ezArrayMapBase KEY VALUE) : Nat := m.m_Data.length

/-- Modelled from the spec: the implementation of `ezArrayMapBase` (ArrayMap_inl.h)
is not among the sources, the model follows the documentation of its
declaration.  `Insert` "always inserts a new value under the given key.
Duplicates are allowed": the pair is added at the end of the array, which is
not known to be sorted afterwards; the index returned is that of the new
element. -/
def Insert (key : KEY) (value : VALUE) (m : ezArrayMapBase KEY VALUE) :
    Nat × ezArrayMapBase KEY VALUE :=
  (m.m_Data.length, { m_bSorted := false, m_Data := m.m_Data ++ [⟨key, value⟩] })

/-- Modelled from the spec: the implementation of `ezArrayMapBase` (ArrayMap_inl.h)
is not among the sources, the model follows the documentation of its
declaration.  `Sort` "ensures the internal data structure is sorted", by key
(`Pair::operator<`); `Sort` is a reserved word here, hence the name. -/
def SortData (m : ezArrayMapBase KEY VALUE) : ezArrayMapBase KEY VALUE :=
  if m.m_bSorted then m
  else { m_bSorted := true, m_Data := m.m_Data.insertionSort fun a b => a.key ≤ b.key }

/-- The index of the first element of the array with the given key. -/
def FindIndex (key : KEY) : List (Pair KEY VALUE) → Option Nat
  | [] => none
  | p :: rest => if p.key = key then some 0 else (FindIndex key rest).map (· + 1)

/-- Modelled from the spec: the implementation of `ezArrayMapBase` (ArrayMap_inl.h)
is not among the sources, the model follows the documentation of its
declaration.  `Find` "returns an index to one element with the given key",
`none` for `ezInvalidIndex` "when no such element exists"; the array is sorted
"automatically every time a lookup needs to be made". -/
def Find (key : KEY) (m : ezArrayMapBase KEY VALUE) : Option Nat × ezArrayMapBase KEY VALUE :=
  (FindIndex key (SortData m).m_Data, SortData m)

/-- Modelled from the spec: the implementation of `ezArrayMapBase` (ArrayMap_inl.h)
is not among the sources, the model follows the documentation of its
declaration.  `Remove(index, bKeepSorted)` "removes the element at the given
index"; the map is known to stay sorted only "if the map is sorted and
bKeepSorted is true". -/
def RemoveAt (index : Nat) (bKeepSorted : Bool) (m : ezArrayMapBase KEY VALUE) :
    ezArrayMapBase KEY VALUE :=
  { m_bSorted := m.m_bSorted && bKeepSorted, m_Data := m.m_Data.eraseIdx index }

/-- Modelled from the spec: the implementation of `ezArrayMapBase` (ArrayMap_inl.h)
is not among the sources, the model follows the documentation of its
declaration.  `Remove(key, bKeepSorted)` "removes one element with the given
key. Returns true, if one was found and removed". -/
def Remove (key : KEY) (bKeepSorted : Bool) (m : ezArrayMapBase KEY VALUE) :
    Bool × ezArrayMapBase KEY VALUE :=
  match (Find key m).1 with
  | none => (false, (Find key m).2)
  | some index => (true, RemoveAt index bKeepSorted (Find key m).2)

/-- Modelled from the spec: the implementation of `ezArrayMapBase` (ArrayMap_inl.h)
is not among the sources, the model follows the documentation of its
declaration.  `Contains` "returns whether an element with the given key
exists". -/
def Contains (key : KEY) (m : ezArrayMapBase KEY VALUE) : Bool × ezArrayMapBase KEY VALUE :=
  ((Find key m).1.isSome, (Find key m).2)

end ezArrayMapBase

/-! ## `ezTextureAssetDocumentGenerator::GetImportModes` (TextureAsset.cpp) -/

/-- The enumeration `TextureType` of TextureAsset.cpp. -/
inductive TextureType where
  | Unknown
  | Diffuse
  | Normal
  | Roughness
  | AO
  | Metalness
  | Height
  | HDR
  | Linear
deriving DecidableEq, Repr

/-- The values of `ezAssetDocGeneratorPriority` that `GetImportModes` assigns. -/
inductive ezAssetDocGeneratorPriority where
  | DefaultPriority
  | LowPriority
deriving DecidableEq, Repr

/-- The fields of `ezAssetDocumentGenerator::Info` that `GetImportModes` fills in. -/
structure ezAssetDocumentGenerator.Info where
  m_Priority : ezAssetDocGeneratorPriority
  m_sOutputFileParentRelative : String
  m_sName : String
  m_sIcon : String
deriving DecidableEq, Repr

/-- The string and path helpers `GetImportModes` calls, which are not among the
sources. -/
structure PathEnv where
  /-- The result of `ezStringBuilder::GetFileName()`. -/
  GetFileName : String → String
  /-- The path after `ezStringBuilder::ChangeFileExtension(szNewExtension)`. -/
  ChangeFileExtension : String → String → String
  /-- The test `ezPathUtils::HasExtension(szPath, szExtension)`. -/
  HasExtension : String → String → Bool
  /-- The test `EndsWith_NoCase(szEnd)` on a string. -/
  EndsWith_NoCase : String → String → Bool
  /-- The result of `GetDocumentExtension()`. -/
  GetDocumentExtension : String

namespace ezTextureAssetDocumentGenerator

/-- The value of `tt` after the chain of tests at the start of `GetImportModes`. -/
def GetTextureType (env : PathEnv) (szParentDirRelativePath : String) : TextureType :=
  let baseFilename := env.GetFileName szParentDirRelativePath
  if env.HasExtension szParentDirRelativePath "hdr" then
    TextureType.HDR
  else if env.EndsWith_NoCase baseFilename "_d" || env.EndsWith_NoCase baseFilename "diffuse" ||
      env.EndsWith_NoCase baseFilename "diff" || env.EndsWith_NoCase baseFilename "col" ||
      env.EndsWith_NoCase baseFilename "color" then
    TextureType.Diffuse
  else if env.EndsWith_NoCase baseFilename "_n" || env.EndsWith_NoCase baseFilename "normal" ||
      env.EndsWith_NoCase baseFilename "normals" || env.EndsWith_NoCase baseFilename "nrm" ||
      env.EndsWith_NoCase baseFilename "norm" then
    TextureType.Normal
  else if env.EndsWith_NoCase baseFilename "_rough" ||
      env.EndsWith_NoCase baseFilename "roughness" || env.EndsWith_NoCase baseFilename "_rgh" then
    TextureType.Roughness
  else if env.EndsWith_NoCase baseFilename "_ao" then
    TextureType.AO
  else if env.EndsWith_NoCase baseFilename "_height" ||
      env.EndsWith_NoCase baseFilename "_disp" then
    TextureType.Height
  else if env.EndsWith_NoCase baseFilename "_metal" || env.EndsWith_NoCase baseFilename "_met" ||
      env.EndsWith_NoCase baseFilename "metallic" then
    TextureType.Metalness
  else if env.EndsWith_NoCase baseFilename "_alpha" then
    TextureType.Linear
  else
    TextureType.Unknown

/-- The function `ezTextureAssetDocumentGenerator::GetImportModes`: the array
`out_Modes` with the entries it appends. -/
def GetImportModes (env : PathEnv) (szParentDirRelativePath : String)
    (out_Modes : List ezAssetDocumentGenerator.Info) : List ezAssetDocumentGenerator.Info :=
  let baseOutputFile :=
    env.ChangeFileExtension szParentDirRelativePath env.GetDocumentExtension
  let tt := GetTextureType env szParentDirRelativePath
  let info0 : ezAssetDocumentGenerator.Info :=
    { m_Priority := ezAssetDocGeneratorPriority.DefaultPriority
      m_sOutputFileParentRelative := baseOutputFile
      m_sName := ""
      m_sIcon := "" }
  let info : ezAssetDocumentGenerator.Info :=
    match tt with
    | TextureType.Diffuse =>
      { info0 with m_sName := "TextureImport.Diffuse", m_sIcon := ":/AssetIcons/Texture_2D.png" }
    | TextureType.Normal =>
      { info0 with m_sName := "TextureImport.Normal",
                   m_sIcon := ":/AssetIcons/Texture_Normals.png" }
    | TextureType.Roughness =>
      { info0 with m_sName := "TextureImport.Roughness",
                   m_sIcon := ":/AssetIcons/Texture_Linear.png" }
    | TextureType.AO =>
      { info0 with m_sName := "TextureImport.AO", m_sIcon := ":/AssetIcons/Texture_Linear.png" }
    | TextureType.Metalness =>
      { info0 with m_sName := "TextureImport.Metalness",
                   m_sIcon := ":/AssetIcons/Texture_Linear.png" }
    | TextureType.Height =>
      { info0 with m_sName := "TextureImport.Height",
                   m_sIcon := ":/AssetIcons/Texture_Linear.png" }
    | TextureType.HDR =>
      { info0 with m_sName := "TextureImport.HDR", m_sIcon := ":/AssetIcons/Texture_2D.png" }
    | TextureType.Linear =>
      { info0 with m_sName := "TextureImport.Linear",
                   m_sIcon := ":/AssetIcons/Texture_Linear.png" }
    | TextureType.Unknown => info0
  let m1 := out_Modes ++ [info]
  let m2 :=
    if tt ≠ TextureType.Diffuse then
      m1 ++ [⟨ezAssetDocGeneratorPriority.LowPriority, baseOutputFile, "TextureImport.Diffuse",
        ":/AssetIcons/Texture_2D.png"⟩]
    else m1
  let m3 :=
    if tt ≠ TextureType.Linear then
      m2 ++ [⟨ezAssetDocGeneratorPriority.LowPriority, baseOutputFile, "TextureImport.Linear",
        ":/AssetIcons/Texture_Linear.png"⟩]
    else m2
  let m4 :=
    if tt ≠ TextureType.Normal then
      m3 ++ [⟨ezAssetDocGeneratorPriority.LowPriority, baseOutputFile, "TextureImport.Normal",
        ":/AssetIcons/Texture_Normals.png"⟩]
    else m3
  let m5 :=
    if tt ≠ TextureType.Metalness then
      m4 ++ [⟨ezAssetDocGeneratorPriority.LowPriority, baseOutputFile, "TextureImport.Metalness",
        ":/AssetIcons/Texture_Linear.png"⟩]
    else m4
  let m6 :=
    if tt ≠ TextureType.Roughness then
      m5 ++ [⟨ezAssetDocGeneratorPriority.LowPriority, baseOutputFile, "TextureImport.Roughness",
        ":/AssetIcons/Texture_Linear.png"⟩]
    else m5
  let m7 :=
    if tt ≠ TextureType.AO then
      m6 ++ [⟨ezAssetDocGeneratorPriority.LowPriority, baseOutputFile, "TextureImport.AO",
        ":/AssetIcons/Texture_Linear.png"⟩]
    else m6
  if tt ≠ TextureType.Height then
    m7 ++ [⟨ezAssetDocGeneratorPriority.LowPriority, baseOutputFile, "TextureImport.Height",
      ":/AssetIcons/Texture_Linear.png"⟩]
  else m7

end ezTextureAssetDocumentGenerator

namespace Sample

/-- A map with the key 2 stored twice. -/
def arrayMap : ezArrayMapBase Nat String :=
  { m_bSorted := false, m_Data := [⟨3, "c"⟩, ⟨2, "b"⟩, ⟨1, "a"⟩, ⟨2, "d"⟩] }

/-- Sample string helpers: the file name is the path itself, the extension is
what follows the last dot, and a suffix is compared after lowering the case. -/
def pathEnv : PathEnv :=
  { GetFileName := fun s => String.mk (s.toList.takeWhile (· ≠ '.'))
    ChangeFileExtension := fun s ext => String.mk (s.toList.takeWhile (· ≠ '.')) ++ "." ++ ext
    HasExtension := fun s ext =>
      (s.toList.reverse.takeWhile (· ≠ '.')).reverse == ext.toList
    EndsWith_NoCase := fun s e =>
      (e.toList.map Char.toLower).reverse.isPrefixOf (s.toList.map Char.toLower).reverse
    GetDocumentExtension := "ezTextureAsset" }

end Sample

/-- The Instantiate commands among the events, in order. -/
def InstantiateCommands (evs : List ezHistoryEvent) : List ezInstantiatePrefabCommand :=
  evs.filterMap fun e =>
    match e with
    | ezHistoryEvent.AddCommand (ezCommand.Instantiate cmd) => some cmd
    | _ => none

/-- The entries `GetImportModes` appends to `out_Modes`. -/
def AppendedModes (env : PathEnv) (szParentDirRelativePath : String)
    (out_Modes : List ezAssetDocumentGenerator.Info) : List ezAssetDocumentGenerator.Info :=
  (ezTextureAssetDocumentGenerator.GetImportModes env szParentDirRelativePath out_Modes).drop
    out_Modes.length

/-! ## Well-formed identities and the saved prefab documents -/

namespace Sample

end Sample

/-! ## Lemmas on the cache maps -/

namespace ezMap

variable {V : Type}

theorem lookup_cons_self (m : List (ezUuid × V)) (k : ezUuid) (v : V) :
    ((k, v) :: m).lookup k = some v := by
  simp [List.lookup]

theorem lookup_cons_other (m : List (ezUuid × V)) (k k' : ezUuid) (v : V) (h : k' ≠ k) :
    ((k, v) :: m).lookup k' = m.lookup k' := by
  have hb : (k' == k) = false := by simpa using h
  simp [List.lookup, hb]

theorem lookup_Assign_self (m : List (ezUuid × V)) (k : ezUuid) (v : V) :
    (Assign m k v).lookup k = some v := by
  induction m with
  | nil => simp [Assign, List.lookup]
  | cons hd tl ih =>
    obtain ⟨k', v'⟩ := hd
    by_cases h : k = k'
    · subst h; simp [Assign, List.lookup]
    · have hb : (k == k') = false := by simpa using h
      simp only [Assign, hb, Bool.false_eq_true, if_false]
      rw [lookup_cons_other _ _ _ _ h]
      exact ih

theorem lookup_Assign_other (m : List (ezUuid × V)) (k k' : ezUuid) (v : V) (h : k' ≠ k) :
    (Assign m k v).lookup k' = m.lookup k' := by
  induction m with
  | nil =>
    simp only [Assign]
    rw [lookup_cons_other _ _ _ _ h]
  | cons hd tl ih =>
    obtain ⟨k0, v0⟩ := hd
    by_cases h0 : k = k0
    · subst h0
      simp only [Assign, beq_self_eq_true, if_true]
      rw [lookup_cons_other _ _ _ _ h, lookup_cons_other _ _ _ _ h]
    · have hb : (k == k0) = false := by simpa using h0
      simp only [Assign, hb, Bool.false_eq_true, if_false]
      by_cases h1 : k' = k0
      · subst h1
        rw [lookup_cons_self, lookup_cons_self]
      · rw [lookup_cons_other _ _ _ _ h1, lookup_cons_other _ _ _ _ h1]
        exact ih

theorem Index_of_lookup (dflt : V) (m : List (ezUuid × V)) (k : ezUuid) (v : V)
    (h : m.lookup k = some v) : Index dflt m k = (v, m) := by
  simp [Index, h]

theorem Contains_eq_false (m : List (ezUuid × V)) (k : ezUuid) :
    Contains m k = false ↔ m.lookup k = none := by
  simp [Contains]

theorem Contains_eq_true (m : List (ezUuid × V)) (k : ezUuid) :
    Contains m k = true ↔ ∃ v, m.lookup k = some v := by
  simp [Contains, Option.isSome_iff_exists]

end ezMap

namespace ezDocument

/-- A cached template text is returned as it is: no read, no change of state. -/
theorem GetCachedPrefabDocument_hit (env : Env) (g : ezUuid) (d : ezDocument) (v : String)
    (h : d.m_CachedPrefabDocuments.lookup g = some v) :
    GetCachedPrefabDocument env g d = (v, d) := by
  have hc : ezMap.Contains d.m_CachedPrefabDocuments g = true :=
    (ezMap.Contains_eq_true _ _).2 ⟨v, h⟩
  simp [GetCachedPrefabDocument, hc, ezMap.Index_of_lookup "" _ _ _ h]

/-- A template text that is not cached is read from storage and stored. -/
theorem GetCachedPrefabDocument_miss (env : Env) (g : ezUuid) (d : ezDocument)
    (h : d.m_CachedPrefabDocuments.lookup g = none) :
    GetCachedPrefabDocument env g d =
      (ReadResult env d.m_FileReads.length g,
        { d with
          m_FileReads := d.m_FileReads ++ [env.GetDocumentPathFromGuid g]
          m_CachedPrefabDocuments :=
            ezMap.Assign d.m_CachedPrefabDocuments g (ReadResult env d.m_FileReads.length g) }) := by
  have hc : ezMap.Contains d.m_CachedPrefabDocuments g = false :=
    (ezMap.Contains_eq_false _ _).2 h
  have hr : ReadDocumentAsString env (env.GetDocumentPathFromGuid g) d =
      (ReadResult env d.m_FileReads.length g,
        { d with m_FileReads := d.m_FileReads ++ [env.GetDocumentPathFromGuid g] }) := by
    unfold ReadDocumentAsString ReadResult
    cases env.m_FileSystem d.m_FileReads.length (env.GetDocumentPathFromGuid g) <;> rfl
  simp only [GetCachedPrefabDocument, hc, hr, Bool.not_false, if_true]
  rw [ezMap.Index_of_lookup "" _ _ _ (ezMap.lookup_Assign_self _ _ _)]

end ezDocument

/-! ## The walk of `UpdatePrefabsRecursive` -/

theorem UpdatePair_congr (env : Env) (md : ezUuid → ezDocumentObjectMetaData)
    (c c' : List (ezUuid × String)) (insts : List ezDocumentObjectPtr)
    (hc : ∀ p ∈ insts, ∃ v, c.lookup (md p.GetGuid).m_CreateFromPrefab = some v)
    (hm : ∀ g v, c.lookup g = some v → c'.lookup g = some v) :
    insts.flatMap (UpdatePair env md c) = insts.flatMap (UpdatePair env md c') := by
  induction insts with
  | nil => rfl
  | cons p rest ih =>
    obtain ⟨v, hv⟩ := hc p (List.mem_cons_self _ _)
    have hp : UpdatePair env md c p = UpdatePair env md c' p := by
      simp [UpdatePair, CachedText, hv, hm _ _ hv]
    rw [List.flatMap_cons, List.flatMap_cons, hp,
      ih (fun q hq => hc q (List.mem_cons_of_mem _ hq))]

theorem Walked_refl (env : Env) (d : ezDocument) : Walked env [] d d where
  root_eq := rfl
  meta_eq := rfl
  graphs_eq := rfl
  status_eq := rfl
  reads_le := le_refl _
  cache_mono := fun _ _ h => h
  cached := fun p hp => absurd hp (List.not_mem_nil p)
  fresh := fun _ _ h => Or.inl h
  history_eq := by simp

theorem Walked_trans {env : Env} {i1 i2 : List ezDocumentObjectPtr} {d d1 d2 : ezDocument}
    (h1 : Walked env i1 d d1) (h2 : Walked env i2 d1 d2) : Walked env (i1 ++ i2) d d2 where
  root_eq := h2.root_eq.trans h1.root_eq
  meta_eq := h2.meta_eq.trans h1.meta_eq
  graphs_eq := h2.graphs_eq.trans h1.graphs_eq
  status_eq := h2.status_eq.trans h1.status_eq
  reads_le := le_trans h1.reads_le h2.reads_le
  cache_mono := fun g v h => h2.cache_mono g v (h1.cache_mono g v h)
  cached := by
    intro p hp
    rcases List.mem_append.1 hp with hp | hp
    · obtain ⟨v, hv⟩ := h1.cached p hp
      exact ⟨v, h2.cache_mono _ _ hv⟩
    · have := h2.cached p hp
      rwa [h1.meta_eq] at this
  fresh := by
    intro g v h
    rcases h2.fresh g v h with h | ⟨n, hn1, hn2, hv⟩
    · rcases h1.fresh g v h with h | ⟨n, hn1, hn2, hv⟩
      · exact Or.inl h
      · exact Or.inr ⟨n, hn1, lt_of_lt_of_le hn2 h2.reads_le, hv⟩
    · exact Or.inr ⟨n, le_trans h1.reads_le hn1, hn2, hv⟩
  history_eq := by
    have e1 := UpdatePair_congr env d.m_DocumentObjectMetaData _ _ i1 h1.cached h2.cache_mono
    rw [h2.history_eq, h1.history_eq, e1, h1.meta_eq, List.flatMap_append, List.append_assoc]

namespace ezDocument

/-- One call of `UpdatePrefabObject` on an instance is a walk step that lists it. -/
theorem UpdatePrefabObject_walked (env : Env) (p : ezDocumentObjectPtr) (d : ezDocument) :
    Walked env [p] d
      (UpdatePrefabObject env p (d.m_DocumentObjectMetaData p.GetGuid).m_CreateFromPrefab
        (d.m_DocumentObjectMetaData p.GetGuid).m_PrefabSeedGuid
        (d.m_DocumentObjectMetaData p.GetGuid).m_sBasePrefab d) := by
  cases hl : d.m_CachedPrefabDocuments.lookup
      (d.m_DocumentObjectMetaData p.GetGuid).m_CreateFromPrefab with
  | some v =>
    have hg := GetCachedPrefabDocument_hit env _ d v hl
    constructor
    · simp [UpdatePrefabObject, hg, AddCommand]
    · simp [UpdatePrefabObject, hg, AddCommand]
    · simp [UpdatePrefabObject, hg, AddCommand]
    · simp [UpdatePrefabObject, hg, AddCommand]
    · simp [UpdatePrefabObject, hg, AddCommand]
    · intro g w h
      simpa [UpdatePrefabObject, hg, AddCommand] using h
    · intro q hq
      rw [List.mem_singleton] at hq
      subst hq
      refine ⟨v, ?_⟩
      simpa [UpdatePrefabObject, hg, AddCommand] using hl
    · intro g w h
      left
      simpa [UpdatePrefabObject, hg, AddCommand] using h
    · simp [UpdatePrefabObject, hg, AddCommand, UpdatePair, RemoveOf, InstantiateOf, MergeOutput,
        CachedText, hl]
  | none =>
    have hg := GetCachedPrefabDocument_miss env _ d hl
    constructor
    · simp [UpdatePrefabObject, hg, AddCommand]
    · simp [UpdatePrefabObject, hg, AddCommand]
    · simp [UpdatePrefabObject, hg, AddCommand]
    · simp [UpdatePrefabObject, hg, AddCommand]
    · simp [UpdatePrefabObject, hg, AddCommand]
    · intro g w h
      have hne : g ≠ (d.m_DocumentObjectMetaData p.GetGuid).m_CreateFromPrefab := by
        rintro rfl
        rw [hl] at h
        exact Option.noConfusion h
      simpa [UpdatePrefabObject, hg, AddCommand, ezMap.lookup_Assign_other _ _ _ _ hne] using h
    · intro q hq
      rw [List.mem_singleton] at hq
      subst hq
      refine ⟨ReadResult env d.m_FileReads.length
        (d.m_DocumentObjectMetaData q.GetGuid).m_CreateFromPrefab, ?_⟩
      simp [UpdatePrefabObject, hg, AddCommand, ezMap.lookup_Assign_self]
    · intro g w h
      by_cases hne : g = (d.m_DocumentObjectMetaData p.GetGuid).m_CreateFromPrefab
      · right
        refine ⟨d.m_FileReads.length, le_refl _, ?_, ?_⟩
        · simp [UpdatePrefabObject, hg, AddCommand]
        · subst hne
          simpa [UpdatePrefabObject, hg, AddCommand, ezMap.lookup_Assign_self, eq_comm] using h
      · left
        simpa [UpdatePrefabObject, hg, AddCommand, ezMap.lookup_Assign_other _ _ _ _ hne] using h
    · simp [UpdatePrefabObject, hg, AddCommand, UpdatePair, RemoveOf, InstantiateOf, MergeOutput,
        CachedText, ezMap.lookup_Assign_self]

mutual

/-- The walk below one object appends the update pairs of the spec's
`WalkTree`, in its order. -/
theorem UpdatePrefabsRecursive_walked (env : Env) (b : Bool) :
    ∀ (o : ezDocumentObject) (d : ezDocument),
      Walked env (WalkTree d.m_DocumentObjectMetaData b o) d (UpdatePrefabsRecursive env b o d)
  | .mk g t ps cs, d => by
    rw [UpdatePrefabsRecursive, WalkTree]
    exact UpdatePrefabsChildren_walked env b g cs d

/-- The loop over a child array appends the update pairs of the spec's
`WalkTree` over these children. -/
theorem UpdatePrefabsChildren_walked (env : Env) (b : Bool) (pg : ezUuid) :
    ∀ (cs : List ezDocumentObject) (d : ezDocument),
      Walked env (WalkTreeChildren d.m_DocumentObjectMetaData b pg cs) d
        (UpdatePrefabsChildren env b pg cs d)
  | [], d => by
    rw [UpdatePrefabsChildren, WalkTreeChildren]
    exact Walked_refl env d
  | c :: rest, d => by
    rw [UpdatePrefabsChildren, WalkTreeChildren]
    by_cases hv : HasValidTemplate d.m_DocumentObjectMetaData c = true
    · have hv' : (d.m_DocumentObjectMetaData c.GetGuid).m_CreateFromPrefab.IsValid = true := hv
      simp only [hv, hv', if_true]
      have h1 : Walked env [⟨c, b, pg⟩] d
          (UpdatePrefabObject env ⟨c, b, pg⟩
            (d.m_DocumentObjectMetaData c.GetGuid).m_CreateFromPrefab
            (d.m_DocumentObjectMetaData c.GetGuid).m_PrefabSeedGuid
            (d.m_DocumentObjectMetaData c.GetGuid).m_sBasePrefab d) :=
        UpdatePrefabObject_walked env ⟨c, b, pg⟩ d
      have h2 := UpdatePrefabsChildren_walked env b pg rest
        (UpdatePrefabObject env ⟨c, b, pg⟩ (d.m_DocumentObjectMetaData c.GetGuid).m_CreateFromPrefab
          (d.m_DocumentObjectMetaData c.GetGuid).m_PrefabSeedGuid
          (d.m_DocumentObjectMetaData c.GetGuid).m_sBasePrefab d)
      rw [h1.meta_eq] at h2
      exact Walked_trans h1 h2
    · have hv' : ¬ (d.m_DocumentObjectMetaData c.GetGuid).m_CreateFromPrefab.IsValid = true := hv
      simp only [hv, hv', if_false]
      have h1 := UpdatePrefabsRecursive_walked env false c d
      have h2 := UpdatePrefabsChildren_walked env b pg rest (UpdatePrefabsRecursive env false c d)
      rw [h1.meta_eq] at h2
      exact Walked_trans h1 h2

end

end ezDocument

/-! ## The spec's `WalkTree` and the positions it lists -/

theorem mem_WalkTreeChildren (md : ezUuid → ezDocumentObjectMetaData) (b : Bool) (pg : ezUuid)
    (p : ezDocumentObjectPtr) :
    ∀ cs : List ezDocumentObject, p ∈ WalkTreeChildren md b pg cs ↔
      ∃ (i : Nat) (c : ezDocumentObject), cs[i]? = some c ∧
        ((HasValidTemplate md c = true ∧ p = ⟨c, b, pg⟩) ∨
          (HasValidTemplate md c = false ∧ p ∈ WalkTree md false c))
  | [] => by simp [WalkTreeChildren]
  | c :: rest => by
    rw [WalkTreeChildren, List.mem_append, mem_WalkTreeChildren md b pg p rest]
    constructor
    · rintro (h | ⟨i, c', hi, h⟩)
      · refine ⟨0, c, by simp, ?_⟩
        by_cases hv : HasValidTemplate md c = true
        · left
          simp only [hv, if_true, List.mem_singleton] at h
          exact ⟨hv, h⟩
        · right
          simp only [hv] at h
          exact ⟨by simpa using hv, h⟩
      · exact ⟨i + 1, c', by simpa using hi, h⟩
    · rintro ⟨i, c', hi, h⟩
      cases i with
      | zero =>
        left
        simp only [List.getElem?_cons_zero, Option.some.injEq] at hi
        subst hi
        rcases h with ⟨hv, hp⟩ | ⟨hv, hp⟩
        · simp [hv, hp]
        · simpa [hv] using hp
      | succ j =>
        right
        exact ⟨j, c', by simpa using hi, h⟩

theorem ObjectAt_cons (o : ezDocumentObject) (i : Nat) (rest : List Nat) (c : ezDocumentObject)
    (h : o.GetChildren[i]? = some c) : ObjectAt o (i :: rest) = ObjectAt c rest := by
  simp [ObjectAt, h]

theorem ObjectAt_cons_some (o : ezDocumentObject) (i : Nat) (rest : List Nat)
    (x : ezDocumentObject) (h : ObjectAt o (i :: rest) = some x) :
    ∃ c, o.GetChildren[i]? = some c ∧ ObjectAt c rest = some x := by
  cases hc : o.GetChildren[i]? with
  | none => simp [ObjectAt, hc] at h
  | some c => exact ⟨c, rfl, by simpa [ObjectAt, hc] using h⟩

/-- A top-level instance below a child without a valid template identity is a
top-level instance below the parent. -/
theorem IsTopLevelInstanceAt.below (md : ezUuid → ezDocumentObjectMetaData)
    (o c x : ezDocumentObject) (i : Nat) (path : List Nat)
    (hc : o.GetChildren[i]? = some c) (hv : HasValidTemplate md c = false)
    (h : IsTopLevelInstanceAt md c path x) : IsTopLevelInstanceAt md o (i :: path) x := by
  obtain ⟨_, hx, hvx, hanc⟩ := h
  refine ⟨by simp, by rw [ObjectAt_cons o i path c hc]; exact hx, hvx, ?_⟩
  intro k a hk hlt ha
  cases k with
  | zero => omega
  | succ j =>
    rw [List.take_succ_cons, ObjectAt_cons o i _ c hc] at ha
    cases j with
    | zero =>
      simp only [List.take_zero, ObjectAt, Option.some.injEq] at ha
      subst ha
      exact hv
    | succ m =>
      exact hanc (m + 1) a (by omega) (by simpa using hlt) ha

/-- A child with a valid template identity is a top-level instance below its parent. -/
theorem IsTopLevelInstanceAt.child (md : ezUuid → ezDocumentObjectMetaData)
    (o c : ezDocumentObject) (i : Nat)
    (hc : o.GetChildren[i]? = some c) (hv : HasValidTemplate md c = true) :
    IsTopLevelInstanceAt md o [i] c := by
  refine ⟨by simp, by rw [ObjectAt_cons o i [] c hc]; rfl, hv, ?_⟩
  intro k a hk hlt _
  simp at hlt
  omega

mutual

theorem WalkTree_positions (md : ezUuid → ezDocumentObjectMetaData) (p : ezDocumentObjectPtr) :
    ∀ (o : ezDocumentObject) (b : Bool), p ∈ WalkTree md b o →
      ∃ path, IsTopLevelInstanceAt md o path p.m_pObject
  | .mk g t ps cs, b => by
    intro h
    rw [WalkTree] at h
    obtain ⟨i, c, hi, hp⟩ := WalkTreeChildren_positions md p cs b g h
    rcases hp with ⟨hv, hp⟩ | ⟨hv, path, hp⟩
    · rw [hp]
      exact ⟨[i], IsTopLevelInstanceAt.child md _ c i hi hv⟩
    · exact ⟨i :: path, IsTopLevelInstanceAt.below md _ c _ i path hi hv hp⟩

theorem WalkTreeChildren_positions (md : ezUuid → ezDocumentObjectMetaData)
    (p : ezDocumentObjectPtr) :
    ∀ (cs : List ezDocumentObject) (b : Bool) (pg : ezUuid), p ∈ WalkTreeChildren md b pg cs →
      ∃ (i : Nat) (c : ezDocumentObject), cs[i]? = some c ∧
        ((HasValidTemplate md c = true ∧ p.m_pObject = c) ∨
          (HasValidTemplate md c = false ∧ ∃ path, IsTopLevelInstanceAt md c path p.m_pObject))
  | [], b, pg => by
    intro h
    simp [WalkTreeChildren] at h
  | c :: rest, b, pg => by
    intro h
    rw [WalkTreeChildren, List.mem_append] at h
    rcases h with h | h
    · by_cases hv : HasValidTemplate md c = true
      · simp only [hv, if_true, List.mem_singleton] at h
        subst h
        exact ⟨0, c, by simp, Or.inl ⟨hv, rfl⟩⟩
      · simp only [hv] at h
        exact ⟨0, c, by simp, Or.inr ⟨by simpa using hv, WalkTree_positions md p c false h⟩⟩
    · obtain ⟨i, c', hi, hp⟩ := WalkTreeChildren_positions md p rest b pg h
      exact ⟨i + 1, c', by simpa using hi, hp⟩

end

/-- Every top-level instance position below `o` is listed by the spec's `WalkTree`. -/
theorem WalkTree_of_position (md : ezUuid → ezDocumentObjectMetaData) :
    ∀ (path : List Nat) (o x : ezDocumentObject) (b : Bool),
      IsTopLevelInstanceAt md o path x → ∃ p ∈ WalkTree md b o, p.m_pObject = x
  | [], _, _, _ => fun h => absurd rfl h.1
  | i :: rest, o, x, b => by
    intro h
    obtain ⟨_, hx, hvx, hanc⟩ := h
    obtain ⟨c, hc, hcx⟩ := ObjectAt_cons_some o i rest x hx
    cases o with
    | mk g t ps cs =>
      simp only [ezDocumentObject.GetChildren] at hc
      rw [WalkTree]
      cases rest with
      | nil =>
        simp only [ObjectAt, Option.some.injEq] at hcx
        subst hcx
        exact ⟨⟨c, b, g⟩, (mem_WalkTreeChildren md b g _ cs).2 ⟨i, c, hc, Or.inl ⟨hvx, rfl⟩⟩, rfl⟩
      | cons j rest' =>
        have hvc : HasValidTemplate md c = false := by
          apply hanc 1 c (by omega) (by simp)
          simp [ObjectAt, ezDocumentObject.GetChildren, hc]
        have hsub : IsTopLevelInstanceAt md c (j :: rest') x := by
          refine ⟨by simp, hcx, hvx, ?_⟩
          intro k a hk hlt ha
          apply hanc (k + 1) a (by omega) (by simpa using hlt)
          rw [List.take_succ_cons, ObjectAt_cons _ i _ c (by simpa [ezDocumentObject.GetChildren] using hc)]
          exact ha
        obtain ⟨p, hp, hpx⟩ := WalkTree_of_position md (j :: rest') c x false hsub
        exact ⟨p, (mem_WalkTreeChildren md b g _ cs).2 ⟨i, c, hc, Or.inr ⟨hvc, hp⟩⟩, hpx⟩

/-! ## `UpdatePrefabs` as a whole -/

namespace ezDocument

/-- The document on which the walk of `UpdatePrefabs` starts. -/
theorem UpdatePrefabs_eq (env : Env) (d : ezDocument) :
    UpdatePrefabs env d =
      ShowDocumentStatus "Prefabs have been updated"
        (FinishTransaction
          (UpdatePrefabsRecursive env true d.m_pRootObject
            (StartTransaction "Update Prefabs"
              { d with m_CachedPrefabDocuments := [], m_CachedPrefabGraphs := [] }))) := rfl

/-- The walk of `UpdatePrefabs`, from the cleared document. -/
theorem UpdatePrefabs_walk (env : Env) (d : ezDocument) :
    Walked env (WalkTree d.m_DocumentObjectMetaData true d.m_pRootObject)
      (StartTransaction "Update Prefabs"
        { d with m_CachedPrefabDocuments := [], m_CachedPrefabGraphs := [] })
      (UpdatePrefabsRecursive env true d.m_pRootObject
        (StartTransaction "Update Prefabs"
          { d with m_CachedPrefabDocuments := [], m_CachedPrefabGraphs := [] })) :=
  UpdatePrefabsRecursive_walked env true d.m_pRootObject
    (StartTransaction "Update Prefabs"
      { d with m_CachedPrefabDocuments := [], m_CachedPrefabGraphs := [] })

/-- The command history after `UpdatePrefabs`. -/
theorem UpdatePrefabs_history (env : Env) (d : ezDocument) :
    (UpdatePrefabs env d).m_CommandHistory =
      d.m_CommandHistory ++
        ([ezHistoryEvent.StartTransaction "Update Prefabs"] ++
          (WalkTree d.m_DocumentObjectMetaData true d.m_pRootObject).flatMap
            (UpdatePair env d.m_DocumentObjectMetaData (UpdatePrefabs env d).m_CachedPrefabDocuments) ++
          [ezHistoryEvent.FinishTransaction]) := by
  have h := (UpdatePrefabs_walk env d).history_eq
  rw [UpdatePrefabs_eq]
  simp only [ShowDocumentStatus, FinishTransaction]
  rw [h]
  simp [StartTransaction]

/-- The events `UpdatePrefabs` appends to the command history. -/
theorem UpdatePrefabs_events (env : Env) (d : ezDocument) :
    NewEvents d (UpdatePrefabs env d) =
      [ezHistoryEvent.StartTransaction "Update Prefabs"] ++
        (WalkTree d.m_DocumentObjectMetaData true d.m_pRootObject).flatMap
          (UpdatePair env d.m_DocumentObjectMetaData (UpdatePrefabs env d).m_CachedPrefabDocuments) ++
        [ezHistoryEvent.FinishTransaction] := by
  unfold NewEvents
  rw [UpdatePrefabs_history]
  simp

/-- Every entry of the raw-content cache after `UpdatePrefabs` was read from
storage during the call. -/
theorem UpdatePrefabs_fresh (env : Env) (d : ezDocument) (g : ezUuid) (v : String)
    (h : (UpdatePrefabs env d).m_CachedPrefabDocuments.lookup g = some v) :
    ∃ n, d.m_FileReads.length ≤ n ∧ n < (UpdatePrefabs env d).m_FileReads.length ∧
      v = ReadResult env n g := by
  rcases (UpdatePrefabs_walk env d).fresh g v h with h0 | h0
  · simp [StartTransaction] at h0
  · exact h0

/-- The pair of an instance listed by `WalkTree` stands in the appended events. -/
theorem UpdatePrefabs_pair (env : Env) (d : ezDocument) (p : ezDocumentObjectPtr)
    (hp : p ∈ WalkTree d.m_DocumentObjectMetaData true d.m_pRootObject) :
    ∃ pre post, NewEvents d (UpdatePrefabs env d) =
      pre ++ UpdatePair env d.m_DocumentObjectMetaData
        (UpdatePrefabs env d).m_CachedPrefabDocuments p ++ post := by
  obtain ⟨l1, l2, hl⟩ := List.append_of_mem hp
  rw [UpdatePrefabs_events, hl]
  refine ⟨[ezHistoryEvent.StartTransaction "Update Prefabs"] ++
    l1.flatMap (UpdatePair env d.m_DocumentObjectMetaData
      (UpdatePrefabs env d).m_CachedPrefabDocuments),
    l2.flatMap (UpdatePair env d.m_DocumentObjectMetaData
      (UpdatePrefabs env d).m_CachedPrefabDocuments) ++ [ezHistoryEvent.FinishTransaction], ?_⟩
  simp [List.flatMap_append, List.flatMap_cons]

/-- The template of an instance listed by `WalkTree` is in the raw-content
cache after `UpdatePrefabs`. -/
theorem UpdatePrefabs_cached (env : Env) (d : ezDocument) (p : ezDocumentObjectPtr)
    (hp : p ∈ WalkTree d.m_DocumentObjectMetaData true d.m_pRootObject) :
    ∃ v, (UpdatePrefabs env d).m_CachedPrefabDocuments.lookup
      (d.m_DocumentObjectMetaData p.GetGuid).m_CreateFromPrefab = some v :=
  (UpdatePrefabs_walk env d).cached p hp

end ezDocument

/-! ## The claims -/

/-- C1, as the claim states it, fails on the sample document: the template of
the instance `A` cannot be read and its raw content resolves to the empty
string, and still `UpdatePrefabs` emits a Remove and an Instantiate command for
`A`. -/
theorem C1_unreadable_template_still_replaced :
    (ezDocument.GetCachedPrefabDocument Sample.env Sample.tA
        { Sample.doc with m_CachedPrefabDocuments := [] }).1 = "" ∧
    NewEvents Sample.doc (ezDocument.UpdatePrefabs Sample.env Sample.doc) =
      [ezHistoryEvent.StartTransaction "Update Prefabs",
       ezHistoryEvent.AddCommand (ezCommand.Remove ⟨Sample.gA⟩),
       ezHistoryEvent.AddCommand (ezCommand.Instantiate
         ⟨false, Sample.tA, ezUuid.Invalid, Sample.sA, "baseA+"⟩),
       ezHistoryEvent.AddCommand (ezCommand.Remove ⟨Sample.gB⟩),
       ezHistoryEvent.AddCommand (ezCommand.Instantiate
         ⟨false, Sample.tB, Sample.gP, Sample.sB, "baseB+newB"⟩),
       ezHistoryEvent.AddCommand (ezCommand.Remove ⟨Sample.gD⟩),
       ezHistoryEvent.AddCommand (ezCommand.Instantiate
         ⟨false, Sample.tB, ezUuid.Invalid, Sample.sD, "baseD+newB"⟩),
       ezHistoryEvent.FinishTransaction] := by
  decide

/-- C1, amended: for every document tree and every prefab instance the walk
reaches whose template file yields the empty string at every read,
`UpdatePrefabs` resolves the raw template content to the empty string and
emits the Remove command for the instance, immediately followed by the
Instantiate command whose graph text is the merge output for the empty new
template text. -/
theorem C1_unreadable_template_merged_with_empty (env : Env) (d : ezDocument)
    (p : ezDocumentObjectPtr)
    (hp : p ∈ WalkTree d.m_DocumentObjectMetaData true d.m_pRootObject)
    (hread : ∀ n, ReadResult env n (d.m_DocumentObjectMetaData p.GetGuid).m_CreateFromPrefab = "") :
    CachedText (ezDocument.UpdatePrefabs env d).m_CachedPrefabDocuments
        (d.m_DocumentObjectMetaData p.GetGuid).m_CreateFromPrefab = "" ∧
    ∃ pre post, NewEvents d (ezDocument.UpdatePrefabs env d) =
      pre ++ [RemoveOf p, InstantiateOf d.m_DocumentObjectMetaData p
        (MergeOutput env d.m_DocumentObjectMetaData p "")] ++ post := by
  obtain ⟨v, hv⟩ := ezDocument.UpdatePrefabs_cached env d p hp
  obtain ⟨n, _, _, hn⟩ := ezDocument.UpdatePrefabs_fresh env d _ v hv
  have hc : CachedText (ezDocument.UpdatePrefabs env d).m_CachedPrefabDocuments
      (d.m_DocumentObjectMetaData p.GetGuid).m_CreateFromPrefab = "" := by
    simp [CachedText, hv, hn, hread n]
  refine ⟨hc, ?_⟩
  obtain ⟨pre, post, h⟩ := ezDocument.UpdatePrefabs_pair env d p hp
  exact ⟨pre, post, by rw [h, UpdatePair, hc]⟩

/-- Witness of C1 (amended) on the sample document, for the instance `A`. -/
theorem C1_unreadable_template_merged_with_empty_witness :
    CachedText (ezDocument.UpdatePrefabs Sample.env Sample.doc).m_CachedPrefabDocuments
        (Sample.doc.m_DocumentObjectMetaData Sample.ptrA.GetGuid).m_CreateFromPrefab = "" ∧
    ∃ pre post, NewEvents Sample.doc (ezDocument.UpdatePrefabs Sample.env Sample.doc) =
      pre ++ [RemoveOf Sample.ptrA, InstantiateOf Sample.doc.m_DocumentObjectMetaData Sample.ptrA
        (MergeOutput Sample.env Sample.doc.m_DocumentObjectMetaData Sample.ptrA "")] ++ post :=
  C1_unreadable_template_merged_with_empty Sample.env Sample.doc Sample.ptrA
    (List.mem_cons_self _ _) (fun _ => rfl)

/-- C2: a Remove command for the identity `g` is among the events that
`UpdatePrefabs` appends exactly when `g` is the identity of an object below the
root that carries a valid template identity and has no proper ancestor below
the root carrying one. -/
theorem C2_updated_set_is_top_level_instances (env : Env) (d : ezDocument) (g : ezUuid) :
    ezHistoryEvent.AddCommand (ezCommand.Remove ⟨g⟩) ∈
        NewEvents d (ezDocument.UpdatePrefabs env d) ↔
      ∃ path o, IsTopLevelInstanceAt d.m_DocumentObjectMetaData d.m_pRootObject path o ∧
        o.GetGuid = g := by
  rw [ezDocument.UpdatePrefabs_events]
  constructor
  · intro h
    simp only [List.mem_append, List.mem_singleton, List.mem_flatMap, UpdatePair, RemoveOf,
      InstantiateOf, List.mem_cons, List.mem_nil_iff, or_false] at h
    rcases h with (h | ⟨p, hp, h | h⟩) | h
    · exact ezHistoryEvent.noConfusion h
    · obtain ⟨path, hpath⟩ := WalkTree_positions _ p _ _ hp
      refine ⟨path, p.m_pObject, hpath, ?_⟩
      injection h with h
      injection h with h
      injection h with h
      exact h.symm
    · injection h with h
      exact ezCommand.noConfusion h
    · exact ezHistoryEvent.noConfusion h
  · rintro ⟨path, o, hpath, hg⟩
    obtain ⟨p, hp, hpo⟩ := WalkTree_of_position _ path _ o true hpath
    simp only [List.mem_append, List.mem_singleton, List.mem_flatMap, UpdatePair, RemoveOf,
      List.mem_cons]
    left; right
    refine ⟨p, hp, Or.inl ?_⟩
    rw [ezDocumentObjectPtr.GetGuid, hpo, hg]

/-- C3: the events `UpdatePrefabs` appends to the command history are one
StartTransaction, then for each instance of the pre-order walk, in its order,
the Remove command of the instance immediately followed by the Instantiate
command that carries the merge output (computed from the base snapshot, the
raw template content the cache holds for the template, the instance and its
seed) with the template identity and seed of the meta data of the instance,
then one FinishTransaction. -/
theorem C3_update_trace (env : Env) (d : ezDocument) :
    (ezDocument.UpdatePrefabs env d).m_CommandHistory =
        d.m_CommandHistory ++ NewEvents d (ezDocument.UpdatePrefabs env d) ∧
    NewEvents d (ezDocument.UpdatePrefabs env d) =
      [ezHistoryEvent.StartTransaction "Update Prefabs"] ++
        (WalkTree d.m_DocumentObjectMetaData true d.m_pRootObject).flatMap (fun p =>
          [ezHistoryEvent.AddCommand (ezCommand.Remove ⟨p.GetGuid⟩),
           ezHistoryEvent.AddCommand (ezCommand.Instantiate
             { m_bAllowPickedPosition := false
               m_CreateFromPrefab := (d.m_DocumentObjectMetaData p.GetGuid).m_CreateFromPrefab
               m_Parent := ezDocument.InstantiateParent p
               m_RemapGuid := (d.m_DocumentObjectMetaData p.GetGuid).m_PrefabSeedGuid
               m_sJsonGraph :=
                 env.Merge (d.m_DocumentObjectMetaData p.GetGuid).m_sBasePrefab
                   (CachedText (ezDocument.UpdatePrefabs env d).m_CachedPrefabDocuments
                     (d.m_DocumentObjectMetaData p.GetGuid).m_CreateFromPrefab)
                   p.m_pObject (d.m_DocumentObjectMetaData p.GetGuid).m_PrefabSeedGuid })]) ++
        [ezHistoryEvent.FinishTransaction] := by
  constructor
  · rw [ezDocument.UpdatePrefabs_events, ← ezDocument.UpdatePrefabs_history]
  · rw [ezDocument.UpdatePrefabs_events]
    rfl

/-! ## `UnlinkPrefabs` -/

namespace ezDocument

/-- The loop of `UnlinkPrefabs` touches nothing but the meta data, and there
only the entries of the selected identities, which it resets. -/
theorem UnlinkPrefabs_loop (sel : List ezDocumentObjectPtr) :
    ∀ d : ezDocument,
      let d' := sel.foldl (fun acc pObject => UnlinkPrefabsObject pObject acc) d
      d'.m_pRootObject = d.m_pRootObject ∧
      d'.m_CommandHistory = d.m_CommandHistory ∧
      d'.m_CachedPrefabDocuments = d.m_CachedPrefabDocuments ∧
      d'.m_CachedPrefabGraphs = d.m_CachedPrefabGraphs ∧
      d'.m_FileReads = d.m_FileReads ∧
      d'.m_StatusMessages = d.m_StatusMessages ∧
      (∀ g, (∀ p ∈ sel, p.GetGuid ≠ g) →
        d'.m_DocumentObjectMetaData g = d.m_DocumentObjectMetaData g) ∧
      (∀ p ∈ sel, d'.m_DocumentObjectMetaData p.GetGuid = ⟨ezUuid.Invalid, ezUuid.Invalid, ""⟩) := by
  induction sel with
  | nil =>
    intro d
    simp
  | cons q rest ih =>
    intro d
    obtain ⟨h1, h2, h3, h4, h5, h6, h7, h8⟩ := ih (UnlinkPrefabsObject q d)
    simp only [List.foldl_cons]
    refine ⟨h1, h2, h3, h4, h5, h6, ?_, ?_⟩
    · intro g hg
      rw [h7 g (fun p hp => hg p (List.mem_cons_of_mem _ hp))]
      have hq : g ≠ q.GetGuid := fun h => hg q (List.mem_cons_self _ _) h.symm
      simp [UnlinkPrefabsObject, hq]
    · intro p hp
      by_cases hex : ∃ r ∈ rest, r.GetGuid = p.GetGuid
      · obtain ⟨r, hr, hrp⟩ := hex
        rw [← hrp]
        exact h8 r hr
      · have hne : ∀ r ∈ rest, r.GetGuid ≠ p.GetGuid := fun r hr h => hex ⟨r, hr, h⟩
        rw [h7 _ hne]
        rcases List.mem_cons.1 hp with hp | hp
        · subst hp
          simp [UnlinkPrefabsObject]
        · exact absurd rfl (hne p hp)

/-- The function `UnlinkPrefabs` in terms of its loop, for every selection. -/
theorem UnlinkPrefabs_eq_loop (sel : List ezDocumentObjectPtr) (d : ezDocument) :
    UnlinkPrefabs sel d = sel.foldl (fun acc pObject => UnlinkPrefabsObject pObject acc) d := by
  cases sel with
  | nil => rfl
  | cons p rest => rfl

end ezDocument

/-- Every instance the spec's `WalkTree` lists carries a valid template identity. -/
theorem WalkTree_valid (md : ezUuid → ezDocumentObjectMetaData) (p : ezDocumentObjectPtr)
    (o : ezDocumentObject) (b : Bool) (h : p ∈ WalkTree md b o) :
    (md p.GetGuid).m_CreateFromPrefab.IsValid = true := by
  obtain ⟨path, hpath⟩ := WalkTree_positions md p o b h
  exact hpath.2.2.1

/-- C4: `UnlinkPrefabs` leaves the object tree, the command history, both
template caches (and the log of file reads and the status line) as they were,
and leaves the meta data of every identity that is not the identity of a
selected object as it was. -/
theorem C4_unlink_frame (Selection : List ezDocumentObjectPtr) (d : ezDocument) :
    (ezDocument.UnlinkPrefabs Selection d).m_pRootObject = d.m_pRootObject ∧
    (ezDocument.UnlinkPrefabs Selection d).m_CommandHistory = d.m_CommandHistory ∧
    (ezDocument.UnlinkPrefabs Selection d).m_CachedPrefabDocuments = d.m_CachedPrefabDocuments ∧
    (ezDocument.UnlinkPrefabs Selection d).m_CachedPrefabGraphs = d.m_CachedPrefabGraphs ∧
    (ezDocument.UnlinkPrefabs Selection d).m_FileReads = d.m_FileReads ∧
    (ezDocument.UnlinkPrefabs Selection d).m_StatusMessages = d.m_StatusMessages ∧
    ∀ g, (∀ p ∈ Selection, p.GetGuid ≠ g) →
      (ezDocument.UnlinkPrefabs Selection d).m_DocumentObjectMetaData g =
        d.m_DocumentObjectMetaData g := by
  rw [ezDocument.UnlinkPrefabs_eq_loop]
  obtain ⟨h1, h2, h3, h4, h5, h6, h7, _⟩ := ezDocument.UnlinkPrefabs_loop Selection d
  exact ⟨h1, h2, h3, h4, h5, h6, h7⟩

/-- Witness of C4 on the sample document: unlinking `A` leaves the meta data of `B`. -/
theorem C4_unlink_frame_witness :
    (ezDocument.UnlinkPrefabs [Sample.ptrA] Sample.doc).m_DocumentObjectMetaData Sample.gB =
      Sample.doc.m_DocumentObjectMetaData Sample.gB :=
  (C4_unlink_frame [Sample.ptrA] Sample.doc).2.2.2.2.2.2 Sample.gB (by decide)

/-- C5: after `UnlinkPrefabs`, every selected object has an invalid template
identity, an invalid seed and an empty base snapshot; a following
`UpdatePrefabs` appends no Remove command for it, and what it appends is made
of the update pairs of instances with another identity. -/
theorem C5_unlink_severs_update (env : Env) (Selection : List ezDocumentObjectPtr)
    (d : ezDocument) (p : ezDocumentObjectPtr) (hp : p ∈ Selection) :
    (ezDocument.UnlinkPrefabs Selection d).m_DocumentObjectMetaData p.GetGuid =
      ⟨ezUuid.Invalid, ezUuid.Invalid, ""⟩ ∧
    ezHistoryEvent.AddCommand (ezCommand.Remove ⟨p.GetGuid⟩) ∉
      NewEvents (ezDocument.UnlinkPrefabs Selection d)
        (ezDocument.UpdatePrefabs env (ezDocument.UnlinkPrefabs Selection d)) ∧
    ∃ insts : List ezDocumentObjectPtr, (∀ q ∈ insts, q.GetGuid ≠ p.GetGuid) ∧
      NewEvents (ezDocument.UnlinkPrefabs Selection d)
          (ezDocument.UpdatePrefabs env (ezDocument.UnlinkPrefabs Selection d)) =
        [ezHistoryEvent.StartTransaction "Update Prefabs"] ++
          insts.flatMap (UpdatePair env (ezDocument.UnlinkPrefabs Selection d).m_DocumentObjectMetaData
            (ezDocument.UpdatePrefabs env
              (ezDocument.UnlinkPrefabs Selection d)).m_CachedPrefabDocuments) ++
          [ezHistoryEvent.FinishTransaction] := by
  have hmeta : (ezDocument.UnlinkPrefabs Selection d).m_DocumentObjectMetaData p.GetGuid =
      ⟨ezUuid.Invalid, ezUuid.Invalid, ""⟩ := by
    rw [ezDocument.UnlinkPrefabs_eq_loop]
    exact (ezDocument.UnlinkPrefabs_loop Selection d).2.2.2.2.2.2.2 p hp
  have hne : ∀ q ∈ WalkTree (ezDocument.UnlinkPrefabs Selection d).m_DocumentObjectMetaData true
      (ezDocument.UnlinkPrefabs Selection d).m_pRootObject, q.GetGuid ≠ p.GetGuid := by
    intro q hq hqp
    have hv := WalkTree_valid _ q _ _ hq
    rw [hqp, hmeta] at hv
    exact absurd hv (by decide)
  refine ⟨hmeta, ?_, _, hne, ezDocument.UpdatePrefabs_events env _⟩
  rw [ezDocument.UpdatePrefabs_events]
  simp only [List.mem_append, List.mem_singleton, List.mem_flatMap, UpdatePair, RemoveOf,
    InstantiateOf, List.mem_cons, List.mem_nil_iff, or_false]
  rintro ((h | ⟨q, hq, h | h⟩) | h)
  · exact ezHistoryEvent.noConfusion h
  · injection h with h
    injection h with h
    injection h with h
    exact hne q hq h.symm
  · injection h with h
    exact ezCommand.noConfusion h
  · exact ezHistoryEvent.noConfusion h

/-- Witness of C5 on the sample document: `A` and `D` are unlinked, and the
following update does not touch `A`. -/
theorem C5_unlink_severs_update_witness :
    (ezDocument.UnlinkPrefabs [Sample.ptrA, Sample.ptrD] Sample.doc).m_DocumentObjectMetaData
        Sample.ptrA.GetGuid = ⟨ezUuid.Invalid, ezUuid.Invalid, ""⟩ ∧
    ezHistoryEvent.AddCommand (ezCommand.Remove ⟨Sample.ptrA.GetGuid⟩) ∉
      NewEvents (ezDocument.UnlinkPrefabs [Sample.ptrA, Sample.ptrD] Sample.doc)
        (ezDocument.UpdatePrefabs Sample.env
          (ezDocument.UnlinkPrefabs [Sample.ptrA, Sample.ptrD] Sample.doc)) ∧
    ∃ insts : List ezDocumentObjectPtr, (∀ q ∈ insts, q.GetGuid ≠ Sample.ptrA.GetGuid) ∧
      NewEvents (ezDocument.UnlinkPrefabs [Sample.ptrA, Sample.ptrD] Sample.doc)
          (ezDocument.UpdatePrefabs Sample.env
            (ezDocument.UnlinkPrefabs [Sample.ptrA, Sample.ptrD] Sample.doc)) =
        [ezHistoryEvent.StartTransaction "Update Prefabs"] ++
          insts.flatMap (UpdatePair Sample.env
            (ezDocument.UnlinkPrefabs [Sample.ptrA, Sample.ptrD] Sample.doc).m_DocumentObjectMetaData
            (ezDocument.UpdatePrefabs Sample.env
              (ezDocument.UnlinkPrefabs [Sample.ptrA, Sample.ptrD]
                Sample.doc)).m_CachedPrefabDocuments) ++
          [ezHistoryEvent.FinishTransaction] :=
  C5_unlink_severs_update Sample.env [Sample.ptrA, Sample.ptrD] Sample.doc Sample.ptrA
    (List.mem_cons_self _ _)

/-! ## `GetCachedPrefabDocument` and `RevertPrefab` -/

theorem Refreshed_refl (env : Env) (d : ezDocument) : Refreshed env d d where
  graphs_eq := rfl
  reads_le := le_refl _
  cache_mono := fun _ _ h => h
  fresh := fun _ _ h => Or.inl h

theorem Refreshed_trans {env : Env} {d d1 d2 : ezDocument}
    (h1 : Refreshed env d d1) (h2 : Refreshed env d1 d2) : Refreshed env d d2 where
  graphs_eq := h2.graphs_eq.trans h1.graphs_eq
  reads_le := le_trans h1.reads_le h2.reads_le
  cache_mono := fun g v h => h2.cache_mono g v (h1.cache_mono g v h)
  fresh := by
    intro g v h
    rcases h2.fresh g v h with h | ⟨n, hn1, hn2, hv⟩
    · rcases h1.fresh g v h with h | ⟨n, hn1, hn2, hv⟩
      · exact Or.inl h
      · exact Or.inr ⟨n, hn1, lt_of_lt_of_le hn2 h2.reads_le, hv⟩
    · exact Or.inr ⟨n, le_trans h1.reads_le hn1, hn2, hv⟩

namespace ezDocument

theorem GetCachedPrefabDocument_refreshed (env : Env) (g : ezUuid) (d : ezDocument) :
    Refreshed env d (GetCachedPrefabDocument env g d).2 := by
  cases hl : d.m_CachedPrefabDocuments.lookup g with
  | some v =>
    rw [GetCachedPrefabDocument_hit env g d v hl]
    exact Refreshed_refl env d
  | none =>
    rw [GetCachedPrefabDocument_miss env g d hl]
    constructor
    · rfl
    · simp
    · intro g' w h
      have hne : g' ≠ g := by
        rintro rfl
        rw [hl] at h
        exact Option.noConfusion h
      simpa [ezMap.lookup_Assign_other _ _ _ _ hne] using h
    · intro g' w h
      by_cases hne : g' = g
      · right
        subst hne
        refine ⟨d.m_FileReads.length, le_refl _, by simp, ?_⟩
        simpa [ezMap.lookup_Assign_self, eq_comm] using h
      · left
        simpa [ezMap.lookup_Assign_other _ _ _ _ hne] using h

theorem GetCachedPrefabDocument_frame (env : Env) (g : ezUuid) (d : ezDocument) :
    (GetCachedPrefabDocument env g d).2.m_CommandHistory = d.m_CommandHistory ∧
    (GetCachedPrefabDocument env g d).2.m_DocumentObjectMetaData = d.m_DocumentObjectMetaData ∧
    (GetCachedPrefabDocument env g d).2.m_pRootObject = d.m_pRootObject := by
  cases hl : d.m_CachedPrefabDocuments.lookup g with
  | some v => rw [GetCachedPrefabDocument_hit env g d v hl]; exact ⟨rfl, rfl, rfl⟩
  | none => rw [GetCachedPrefabDocument_miss env g d hl]; exact ⟨rfl, rfl, rfl⟩

theorem RevertPrefab_refreshed (env : Env) (p : ezDocumentObjectPtr) (d : ezDocument) :
    Refreshed env d (RevertPrefab env p d).2 := by
  unfold RevertPrefab
  by_cases hv : (d.m_DocumentObjectMetaData p.GetGuid).m_CreateFromPrefab.IsValid = true
  · simp only [hv, Bool.not_true, Bool.false_eq_true, if_false]
    have h := GetCachedPrefabDocument_refreshed env
      (d.m_DocumentObjectMetaData p.GetGuid).m_CreateFromPrefab d
    exact ⟨h.graphs_eq, h.reads_le, h.cache_mono, h.fresh⟩
  · simp only [hv, Bool.not_false, if_true]
    exact Refreshed_refl env d

theorem RevertPrefabs_loop_refreshed (env : Env) (sel : List ezDocumentObjectPtr) :
    ∀ d : ezDocument,
      Refreshed env d (sel.foldl (fun acc pItem => (RevertPrefab env pItem acc).2) d) := by
  induction sel with
  | nil => intro d; exact Refreshed_refl env d
  | cons p rest ih =>
    intro d
    exact Refreshed_trans (RevertPrefab_refreshed env p d) (ih _)

theorem GetCachedPrefabDocument_loop_refreshed (env : Env) (gs : List ezUuid) :
    ∀ d : ezDocument,
      Refreshed env d (gs.foldl (fun acc h => (GetCachedPrefabDocument env h acc).2) d) := by
  induction gs with
  | nil => intro d; exact Refreshed_refl env d
  | cons g rest ih =>
    intro d
    exact Refreshed_trans (GetCachedPrefabDocument_refreshed env g d) (ih _)

end ezDocument

/-- C6: for an object with a valid template identity, `RevertPrefab` appends
exactly the Remove command of the object followed by the Instantiate command
with the template identity and the seed of its meta data and, as graph text,
the raw template content `GetCachedPrefabDocument` resolves; the merge has no
part in the result, and neither have the properties and children of the
object.  For an object without a valid template identity it returns the
invalid identity and leaves the document as it is. -/
theorem C6_revert_prefab (env : Env) (p : ezDocumentObjectPtr) (d : ezDocument) :
    ((d.m_DocumentObjectMetaData p.GetGuid).m_CreateFromPrefab.IsValid = true →
      (ezDocument.RevertPrefab env p d).2.m_CommandHistory =
        d.m_CommandHistory ++
          [ezHistoryEvent.AddCommand (ezCommand.Remove ⟨p.GetGuid⟩),
           ezHistoryEvent.AddCommand (ezCommand.Instantiate
             { m_bAllowPickedPosition := false
               m_CreateFromPrefab := (d.m_DocumentObjectMetaData p.GetGuid).m_CreateFromPrefab
               m_Parent := ezDocument.InstantiateParent p
               m_RemapGuid := (d.m_DocumentObjectMetaData p.GetGuid).m_PrefabSeedGuid
               m_sJsonGraph := (ezDocument.GetCachedPrefabDocument env
                 (d.m_DocumentObjectMetaData p.GetGuid).m_CreateFromPrefab d).1 })] ∧
      (∀ merge : String → String → ezDocumentObject → ezUuid → String,
        ezDocument.RevertPrefab { env with Merge := merge } p d = ezDocument.RevertPrefab env p d) ∧
      (∀ p' : ezDocumentObjectPtr, p'.GetGuid = p.GetGuid →
        p'.m_bParentIsRoot = p.m_bParentIsRoot → p'.m_ParentGuid = p.m_ParentGuid →
        ezDocument.RevertPrefab env p' d = ezDocument.RevertPrefab env p d)) ∧
    ((d.m_DocumentObjectMetaData p.GetGuid).m_CreateFromPrefab.IsValid = false →
      ezDocument.RevertPrefab env p d = (ezUuid.Invalid, d)) := by
  constructor
  · intro hv
    refine ⟨?_, fun _ => rfl, ?_⟩
    · have hf := (ezDocument.GetCachedPrefabDocument_frame env
        (d.m_DocumentObjectMetaData p.GetGuid).m_CreateFromPrefab d).1
      simp [ezDocument.RevertPrefab, hv, ezDocument.AddCommand, hf]
    · intro p' hg hb hpg
      simp [ezDocument.RevertPrefab, ezDocument.InstantiateParent, hg, hb, hpg]
  · intro hv
    simp [ezDocument.RevertPrefab, hv]

/-- Witness of C6 on the sample document: reverting the instance `D`, and
reverting the plain object `P`. -/
theorem C6_revert_prefab_witness :
    (ezDocument.RevertPrefab Sample.env Sample.ptrD Sample.doc).2.m_CommandHistory =
      Sample.doc.m_CommandHistory ++
        [ezHistoryEvent.AddCommand (ezCommand.Remove ⟨Sample.ptrD.GetGuid⟩),
         ezHistoryEvent.AddCommand (ezCommand.Instantiate
           { m_bAllowPickedPosition := false
             m_CreateFromPrefab :=
               (Sample.doc.m_DocumentObjectMetaData Sample.ptrD.GetGuid).m_CreateFromPrefab
             m_Parent := ezDocument.InstantiateParent Sample.ptrD
             m_RemapGuid :=
               (Sample.doc.m_DocumentObjectMetaData Sample.ptrD.GetGuid).m_PrefabSeedGuid
             m_sJsonGraph := (ezDocument.GetCachedPrefabDocument Sample.env
               (Sample.doc.m_DocumentObjectMetaData Sample.ptrD.GetGuid).m_CreateFromPrefab
               Sample.doc).1 })] ∧
    ezDocument.RevertPrefab Sample.env Sample.ptrP Sample.doc = (ezUuid.Invalid, Sample.doc) :=
  ⟨((C6_revert_prefab Sample.env Sample.ptrD Sample.doc).1 (by decide)).1,
   (C6_revert_prefab Sample.env Sample.ptrP Sample.doc).2 (by decide)⟩

/-- C7: for two sibling instances `a` and `b` (children number `i` and `j` of
the same walked object, in either order) where the template file of `a` can
never be opened and the template file of `b` always delivers `sNew`,
`UpdatePrefabs` appends the Remove command of `b` immediately followed by the
Instantiate command of `b`, whose graph text is the merge output for `sNew`;
the failed read for `a` stops nothing (the pair of `a` is appended as well,
merged against the empty text). -/
theorem C7_sibling_update_isolation (env : Env) (d : ezDocument) (q : List Nat) (i j : Nat)
    (a b : ezDocumentObject) (sNew : String)
    (ha : IsTopLevelInstanceAt d.m_DocumentObjectMetaData d.m_pRootObject (q ++ [i]) a)
    (hb : IsTopLevelInstanceAt d.m_DocumentObjectMetaData d.m_pRootObject (q ++ [j]) b)
    (hread_a : ∀ n, env.m_FileSystem n (env.GetDocumentPathFromGuid
      (d.m_DocumentObjectMetaData a.GetGuid).m_CreateFromPrefab) = none)
    (hread_b : ∀ n, env.m_FileSystem n (env.GetDocumentPathFromGuid
      (d.m_DocumentObjectMetaData b.GetGuid).m_CreateFromPrefab) = some sNew) :
    (∃ pre post parent, NewEvents d (ezDocument.UpdatePrefabs env d) =
      pre ++ [ezHistoryEvent.AddCommand (ezCommand.Remove ⟨b.GetGuid⟩),
        ezHistoryEvent.AddCommand (ezCommand.Instantiate
          { m_bAllowPickedPosition := false
            m_CreateFromPrefab := (d.m_DocumentObjectMetaData b.GetGuid).m_CreateFromPrefab
            m_Parent := parent
            m_RemapGuid := (d.m_DocumentObjectMetaData b.GetGuid).m_PrefabSeedGuid
            m_sJsonGraph := env.Merge (d.m_DocumentObjectMetaData b.GetGuid).m_sBasePrefab sNew b
              (d.m_DocumentObjectMetaData b.GetGuid).m_PrefabSeedGuid })] ++ post) ∧
    (∃ pre post parent, NewEvents d (ezDocument.UpdatePrefabs env d) =
      pre ++ [ezHistoryEvent.AddCommand (ezCommand.Remove ⟨a.GetGuid⟩),
        ezHistoryEvent.AddCommand (ezCommand.Instantiate
          { m_bAllowPickedPosition := false
            m_CreateFromPrefab := (d.m_DocumentObjectMetaData a.GetGuid).m_CreateFromPrefab
            m_Parent := parent
            m_RemapGuid := (d.m_DocumentObjectMetaData a.GetGuid).m_PrefabSeedGuid
            m_sJsonGraph := env.Merge (d.m_DocumentObjectMetaData a.GetGuid).m_sBasePrefab "" a
              (d.m_DocumentObjectMetaData a.GetGuid).m_PrefabSeedGuid })] ++ post) := by
  have key : ∀ (x : ezDocumentObject) (path : List Nat) (s : String),
      IsTopLevelInstanceAt d.m_DocumentObjectMetaData d.m_pRootObject path x →
      (∀ n, ReadResult env n (d.m_DocumentObjectMetaData x.GetGuid).m_CreateFromPrefab = s) →
      ∃ pre post parent, NewEvents d (ezDocument.UpdatePrefabs env d) =
        pre ++ [ezHistoryEvent.AddCommand (ezCommand.Remove ⟨x.GetGuid⟩),
          ezHistoryEvent.AddCommand (ezCommand.Instantiate
            { m_bAllowPickedPosition := false
              m_CreateFromPrefab := (d.m_DocumentObjectMetaData x.GetGuid).m_CreateFromPrefab
              m_Parent := parent
              m_RemapGuid := (d.m_DocumentObjectMetaData x.GetGuid).m_PrefabSeedGuid
              m_sJsonGraph := env.Merge (d.m_DocumentObjectMetaData x.GetGuid).m_sBasePrefab s x
                (d.m_DocumentObjectMetaData x.GetGuid).m_PrefabSeedGuid })] ++ post := by
    intro x path s hx hs
    obtain ⟨p, hp, hpx⟩ := WalkTree_of_position _ path _ x true hx
    subst hpx
    obtain ⟨v, hv⟩ := ezDocument.UpdatePrefabs_cached env d p hp
    obtain ⟨n, _, _, hn⟩ := ezDocument.UpdatePrefabs_fresh env d _ v hv
    obtain ⟨pre, post, h⟩ := ezDocument.UpdatePrefabs_pair env d p hp
    have hc : CachedText (ezDocument.UpdatePrefabs env d).m_CachedPrefabDocuments
        (d.m_DocumentObjectMetaData p.GetGuid).m_CreateFromPrefab = s := by
      have hsn : ReadResult env n (d.m_DocumentObjectMetaData p.GetGuid).m_CreateFromPrefab = s :=
        hs n
      simp [CachedText, hv, hn, hsn]
    refine ⟨pre, post, ezDocument.InstantiateParent p, ?_⟩
    rw [h, UpdatePair, hc]
    rfl
  constructor
  · exact key b _ sNew hb (fun n => by simp [ReadResult, hread_b n])
  · exact key a _ "" ha (fun n => by simp [ReadResult, hread_a n])

/-- Witness of C7 on the sample document: `A` (child 0 of the root, template
unreadable) and `D` (child 2 of the root, template readable). -/
theorem C7_sibling_update_isolation_witness :
    (∃ pre post parent, NewEvents Sample.doc (ezDocument.UpdatePrefabs Sample.env Sample.doc) =
      pre ++ [ezHistoryEvent.AddCommand (ezCommand.Remove ⟨Sample.objD.GetGuid⟩),
        ezHistoryEvent.AddCommand (ezCommand.Instantiate
          { m_bAllowPickedPosition := false
            m_CreateFromPrefab :=
              (Sample.doc.m_DocumentObjectMetaData Sample.objD.GetGuid).m_CreateFromPrefab
            m_Parent := parent
            m_RemapGuid :=
              (Sample.doc.m_DocumentObjectMetaData Sample.objD.GetGuid).m_PrefabSeedGuid
            m_sJsonGraph := Sample.env.Merge
              (Sample.doc.m_DocumentObjectMetaData Sample.objD.GetGuid).m_sBasePrefab "newB"
              Sample.objD
              (Sample.doc.m_DocumentObjectMetaData Sample.objD.GetGuid).m_PrefabSeedGuid })] ++
        post) ∧
    (∃ pre post parent, NewEvents Sample.doc (ezDocument.UpdatePrefabs Sample.env Sample.doc) =
      pre ++ [ezHistoryEvent.AddCommand (ezCommand.Remove ⟨Sample.objA.GetGuid⟩),
        ezHistoryEvent.AddCommand (ezCommand.Instantiate
          { m_bAllowPickedPosition := false
            m_CreateFromPrefab :=
              (Sample.doc.m_DocumentObjectMetaData Sample.objA.GetGuid).m_CreateFromPrefab
            m_Parent := parent
            m_RemapGuid :=
              (Sample.doc.m_DocumentObjectMetaData Sample.objA.GetGuid).m_PrefabSeedGuid
            m_sJsonGraph := Sample.env.Merge
              (Sample.doc.m_DocumentObjectMetaData Sample.objA.GetGuid).m_sBasePrefab ""
              Sample.objA
              (Sample.doc.m_DocumentObjectMetaData Sample.objA.GetGuid).m_PrefabSeedGuid })] ++
        post) :=
  C7_sibling_update_isolation Sample.env Sample.doc [] 0 2 Sample.objA Sample.objD "newB"
    (IsTopLevelInstanceAt.child _ Sample.root Sample.objA 0 rfl rfl)
    (IsTopLevelInstanceAt.child _ Sample.root Sample.objD 2 rfl rfl)
    (fun _ => rfl) (fun _ => rfl)

/-- C8, as the claim states it, fails for the empty selection: `RevertPrefabs`
returns before it clears anything, and the entries both caches of the sample
document hold from an earlier operation are still there after the call. -/
theorem C8_revert_empty_selection_keeps_caches :
    (ezDocument.RevertPrefabs Sample.env [] Sample.doc).m_CachedPrefabDocuments =
      [(Sample.tB, "oldB")] ∧
    (ezDocument.RevertPrefabs Sample.env [] Sample.doc).m_CachedPrefabGraphs =
      [(Sample.tB, ⟨[]⟩)] := by
  decide

/-- C8, amended: `UpdatePrefabs`, and `RevertPrefabs` for a selection that is
not empty, purge both caches at their start: the call does what it does on the
document with both caches empty, the parsed-graph cache is empty afterwards,
and every text the raw-content cache holds afterwards was read from storage
during the call.  `RevertPrefabs` for the empty selection returns the document
as it is, both caches included. -/
theorem C8_caches_purged (env : Env) (Selection : List ezDocumentObjectPtr) (d : ezDocument) :
    ((ezDocument.UpdatePrefabs env d =
        ezDocument.UpdatePrefabs env
          { d with m_CachedPrefabDocuments := [], m_CachedPrefabGraphs := [] } ∧
      (ezDocument.UpdatePrefabs env d).m_CachedPrefabGraphs = [] ∧
      ∀ g v, (ezDocument.UpdatePrefabs env d).m_CachedPrefabDocuments.lookup g = some v →
        ∃ n, d.m_FileReads.length ≤ n ∧ n < (ezDocument.UpdatePrefabs env d).m_FileReads.length ∧
          v = ReadResult env n g) ∧
    (Selection ≠ [] →
      ezDocument.RevertPrefabs env Selection d =
        ezDocument.RevertPrefabs env Selection
          { d with m_CachedPrefabDocuments := [], m_CachedPrefabGraphs := [] } ∧
      (ezDocument.RevertPrefabs env Selection d).m_CachedPrefabGraphs = [] ∧
      ∀ g v, (ezDocument.RevertPrefabs env Selection d).m_CachedPrefabDocuments.lookup g = some v →
        ∃ n, d.m_FileReads.length ≤ n ∧
          n < (ezDocument.RevertPrefabs env Selection d).m_FileReads.length ∧
          v = ReadResult env n g)) ∧
    ezDocument.RevertPrefabs env [] d = d := by
  refine ⟨?_, rfl⟩
  constructor
  · refine ⟨rfl, ?_, ezDocument.UpdatePrefabs_fresh env d⟩
    have h := (ezDocument.UpdatePrefabs_walk env d).graphs_eq
    rw [ezDocument.UpdatePrefabs_eq]
    simpa [ezDocument.ShowDocumentStatus, ezDocument.FinishTransaction,
      ezDocument.StartTransaction] using h
  · intro hsel
    have he : Selection.isEmpty = false := by
      cases Selection with
      | nil => exact absurd rfl hsel
      | cons _ _ => rfl
    have hr := ezDocument.RevertPrefabs_loop_refreshed env Selection
      (ezDocument.StartTransaction "Revert Prefab"
        { d with m_CachedPrefabDocuments := [], m_CachedPrefabGraphs := [] })
    refine ⟨?_, ?_, ?_⟩
    · simp [ezDocument.RevertPrefabs, he]
    · have h := hr.graphs_eq
      simpa [ezDocument.RevertPrefabs, he, ezDocument.FinishTransaction,
        ezDocument.StartTransaction] using h
    · intro g v h
      have h' : (Selection.foldl (fun acc pItem => (ezDocument.RevertPrefab env pItem acc).2)
          (ezDocument.StartTransaction "Revert Prefab"
            { d with m_CachedPrefabDocuments := [], m_CachedPrefabGraphs := [] })
          ).m_CachedPrefabDocuments.lookup g = some v := by
        simpa [ezDocument.RevertPrefabs, he, ezDocument.FinishTransaction] using h
      rcases hr.fresh g v h' with h0 | ⟨n, hn1, hn2, hv⟩
      · simp [ezDocument.StartTransaction] at h0
      · refine ⟨n, by simpa [ezDocument.StartTransaction] using hn1, ?_, hv⟩
        simpa [ezDocument.RevertPrefabs, he, ezDocument.FinishTransaction] using hn2

/-- Witness of C8 (amended) on the sample document, for the selection of `D`. -/
theorem C8_caches_purged_witness :
    ezDocument.RevertPrefabs Sample.env [Sample.ptrD] Sample.doc =
        ezDocument.RevertPrefabs Sample.env [Sample.ptrD]
          { Sample.doc with m_CachedPrefabDocuments := [], m_CachedPrefabGraphs := [] } ∧
      (ezDocument.RevertPrefabs Sample.env [Sample.ptrD] Sample.doc).m_CachedPrefabGraphs = [] ∧
      ∀ g v, (ezDocument.RevertPrefabs Sample.env [Sample.ptrD]
          Sample.doc).m_CachedPrefabDocuments.lookup g = some v →
        ∃ n, Sample.doc.m_FileReads.length ≤ n ∧
          n < (ezDocument.RevertPrefabs Sample.env [Sample.ptrD] Sample.doc).m_FileReads.length ∧
          v = ReadResult Sample.env n g :=
  (C8_caches_purged Sample.env [Sample.ptrD] Sample.doc).1.2 (by simp)

/-- C9: when `g` has no entry in the raw-content cache, `GetCachedPrefabDocument`
opens the template file of `g` once, returns what the read delivers (the empty
string when the file cannot be opened) and stores it under `g`; after any
further calls of `GetCachedPrefabDocument`, for any identities and with any
other content of the file system, a call for `g` returns the stored text and
changes nothing, so it reads no file. -/
theorem C9_cached_document_read_once (env env' : Env) (d : ezDocument) (g : ezUuid)
    (gs : List ezUuid) (hmiss : ezMap.Contains d.m_CachedPrefabDocuments g = false) :
    (ezDocument.GetCachedPrefabDocument env g d).1 = ReadResult env d.m_FileReads.length g ∧
    (env.m_FileSystem d.m_FileReads.length (env.GetDocumentPathFromGuid g) = none →
      (ezDocument.GetCachedPrefabDocument env g d).1 = "") ∧
    (ezDocument.GetCachedPrefabDocument env g d).2.m_FileReads =
      d.m_FileReads ++ [env.GetDocumentPathFromGuid g] ∧
    (ezDocument.GetCachedPrefabDocument env g d).2.m_CachedPrefabDocuments.lookup g =
      some (ezDocument.GetCachedPrefabDocument env g d).1 ∧
    ezDocument.GetCachedPrefabDocument env' g
        (gs.foldl (fun acc h => (ezDocument.GetCachedPrefabDocument env' h acc).2)
          (ezDocument.GetCachedPrefabDocument env g d).2) =
      ((ezDocument.GetCachedPrefabDocument env g d).1,
        gs.foldl (fun acc h => (ezDocument.GetCachedPrefabDocument env' h acc).2)
          (ezDocument.GetCachedPrefabDocument env g d).2) := by
  have hl := (ezMap.Contains_eq_false _ _).1 hmiss
  have hm := ezDocument.GetCachedPrefabDocument_miss env g d hl
  have hstored : (ezDocument.GetCachedPrefabDocument env g d).2.m_CachedPrefabDocuments.lookup g =
      some (ezDocument.GetCachedPrefabDocument env g d).1 := by
    rw [hm]
    exact ezMap.lookup_Assign_self _ _ _
  refine ⟨by rw [hm], ?_, by rw [hm], hstored, ?_⟩
  · intro hnone
    rw [hm]
    simp [ReadResult, hnone]
  · exact ezDocument.GetCachedPrefabDocument_hit env' g _ _
      ((ezDocument.GetCachedPrefabDocument_loop_refreshed env' gs _).cache_mono g _ hstored)

/-- Witness of C9: on the sample document with an empty raw-content cache the
text of `tA` is read once (the read fails), and a later call, after a call for
`tB`, returns the stored empty text. -/
theorem C9_cached_document_read_once_witness :
    ezDocument.GetCachedPrefabDocument Sample.env Sample.tA
        ([Sample.tB].foldl (fun acc h => (ezDocument.GetCachedPrefabDocument Sample.env h acc).2)
          (ezDocument.GetCachedPrefabDocument Sample.env Sample.tA
            { Sample.doc with m_CachedPrefabDocuments := [] }).2) =
      ((ezDocument.GetCachedPrefabDocument Sample.env Sample.tA
          { Sample.doc with m_CachedPrefabDocuments := [] }).1,
        [Sample.tB].foldl (fun acc h => (ezDocument.GetCachedPrefabDocument Sample.env h acc).2)
          (ezDocument.GetCachedPrefabDocument Sample.env Sample.tA
            { Sample.doc with m_CachedPrefabDocuments := [] }).2) :=
  (C9_cached_document_read_once Sample.env Sample.env
    { Sample.doc with m_CachedPrefabDocuments := [] } Sample.tA [Sample.tB]
    (by decide)).2.2.2.2

/-- C10: in one `UpdatePrefabs` pass, two updated instances with the same
template identity are merged against one and the same new template text, which
is what one read of the template file delivered, whatever the file system
holds at the other reads of the pass. -/
theorem C10_same_template_same_text (env : Env) (d : ezDocument) (A B : ezDocumentObjectPtr)
    (hA : A ∈ WalkTree d.m_DocumentObjectMetaData true d.m_pRootObject)
    (hB : B ∈ WalkTree d.m_DocumentObjectMetaData true d.m_pRootObject)
    (hT : (d.m_DocumentObjectMetaData A.GetGuid).m_CreateFromPrefab =
      (d.m_DocumentObjectMetaData B.GetGuid).m_CreateFromPrefab) :
    ∃ sNew, (∃ n, sNew = ReadResult env n (d.m_DocumentObjectMetaData A.GetGuid).m_CreateFromPrefab) ∧
      (∃ pre post, NewEvents d (ezDocument.UpdatePrefabs env d) =
        pre ++ [RemoveOf A, InstantiateOf d.m_DocumentObjectMetaData A
          (MergeOutput env d.m_DocumentObjectMetaData A sNew)] ++ post) ∧
      (∃ pre post, NewEvents d (ezDocument.UpdatePrefabs env d) =
        pre ++ [RemoveOf B, InstantiateOf d.m_DocumentObjectMetaData B
          (MergeOutput env d.m_DocumentObjectMetaData B sNew)] ++ post) := by
  obtain ⟨v, hv⟩ := ezDocument.UpdatePrefabs_cached env d A hA
  obtain ⟨n, _, _, hn⟩ := ezDocument.UpdatePrefabs_fresh env d _ v hv
  obtain ⟨preA, postA, hpA⟩ := ezDocument.UpdatePrefabs_pair env d A hA
  obtain ⟨preB, postB, hpB⟩ := ezDocument.UpdatePrefabs_pair env d B hB
  have hcA : CachedText (ezDocument.UpdatePrefabs env d).m_CachedPrefabDocuments
      (d.m_DocumentObjectMetaData A.GetGuid).m_CreateFromPrefab = v := by
    simp [CachedText, hv]
  have hcB : CachedText (ezDocument.UpdatePrefabs env d).m_CachedPrefabDocuments
      (d.m_DocumentObjectMetaData B.GetGuid).m_CreateFromPrefab = v := by
    rw [← hT]
    exact hcA
  refine ⟨v, ⟨n, hn⟩, ⟨preA, postA, ?_⟩, ⟨preB, postB, ?_⟩⟩
  · rw [hpA, UpdatePair, hcA]
  · rw [hpB, UpdatePair, hcB]

/-- Witness of C10 on the sample document: `B` and `D` both come from `tB`. -/
theorem C10_same_template_same_text_witness :
    ∃ sNew, (∃ n, sNew = ReadResult Sample.env n
        (Sample.doc.m_DocumentObjectMetaData Sample.ptrB.GetGuid).m_CreateFromPrefab) ∧
      (∃ pre post, NewEvents Sample.doc (ezDocument.UpdatePrefabs Sample.env Sample.doc) =
        pre ++ [RemoveOf Sample.ptrB, InstantiateOf Sample.doc.m_DocumentObjectMetaData Sample.ptrB
          (MergeOutput Sample.env Sample.doc.m_DocumentObjectMetaData Sample.ptrB sNew)] ++ post) ∧
      (∃ pre post, NewEvents Sample.doc (ezDocument.UpdatePrefabs Sample.env Sample.doc) =
        pre ++ [RemoveOf Sample.ptrD, InstantiateOf Sample.doc.m_DocumentObjectMetaData Sample.ptrD
          (MergeOutput Sample.env Sample.doc.m_DocumentObjectMetaData Sample.ptrD sNew)] ++ post) :=
  C10_same_template_same_text Sample.env Sample.doc Sample.ptrB Sample.ptrD
    (List.mem_cons_of_mem _ (List.mem_cons_self _ _))
    (List.mem_cons_of_mem _ (List.mem_cons_of_mem _ (List.mem_cons_self _ _))) rfl

/-! ## `GetCachedPrefabGraph` -/

namespace ezDocument

/-- A cached graph is returned as it is: no read, no parse, no change of state. -/
theorem GetCachedPrefabGraph_hit (env : DocumentEnv) (g : ezUuid) (d : ezDocument)
    (graph : ezAbstractObjectGraph) (h : d.m_CachedPrefabGraphs.lookup g = some graph) :
    GetCachedPrefabGraph env g d = (some graph, d) := by
  have hc : ezMap.Contains d.m_CachedPrefabGraphs g = true :=
    (ezMap.Contains_eq_true _ _).2 ⟨graph, h⟩
  simp [GetCachedPrefabGraph, hc, ezMap.Find, h]

/-- Without a cached graph and with empty raw content the result is null and
the graph cache stays as it is. -/
theorem GetCachedPrefabGraph_miss_empty (env : DocumentEnv) (g : ezUuid) (d : ezDocument)
    (h : d.m_CachedPrefabGraphs.lookup g = none)
    (he : (GetCachedPrefabDocument env.toEnv g d).1 = "") :
    GetCachedPrefabGraph env g d = (none, (GetCachedPrefabDocument env.toEnv g d).2) := by
  have hc : ezMap.Contains d.m_CachedPrefabGraphs g = false :=
    (ezMap.Contains_eq_false _ _).2 h
  simp [GetCachedPrefabGraph, hc, he]

/-- Without a cached graph and with raw content the content is parsed and the
graph is stored. -/
theorem GetCachedPrefabGraph_miss_load (env : DocumentEnv) (g : ezUuid) (d : ezDocument)
    (h : d.m_CachedPrefabGraphs.lookup g = none)
    (he : (GetCachedPrefabDocument env.toEnv g d).1 ≠ "") :
    GetCachedPrefabGraph env g d =
      (some (env.LoadGraph (GetCachedPrefabDocument env.toEnv g d).1),
        { (GetCachedPrefabDocument env.toEnv g d).2 with
          m_CachedPrefabGraphs :=
            ezMap.Assign (GetCachedPrefabDocument env.toEnv g d).2.m_CachedPrefabGraphs g
              (env.LoadGraph (GetCachedPrefabDocument env.toEnv g d).1) }) := by
  have hc : ezMap.Contains d.m_CachedPrefabGraphs g = false :=
    (ezMap.Contains_eq_false _ _).2 h
  simp [GetCachedPrefabGraph, hc, he]

/-- A call of `GetCachedPrefabGraph` keeps every graph the cache holds. -/
theorem GetCachedPrefabGraph_keeps (env : DocumentEnv) (g h : ezUuid) (d : ezDocument)
    (graph : ezAbstractObjectGraph) (hh : d.m_CachedPrefabGraphs.lookup h = some graph) :
    (GetCachedPrefabGraph env g d).2.m_CachedPrefabGraphs.lookup h = some graph := by
  cases hl : d.m_CachedPrefabGraphs.lookup g with
  | some gr => rw [GetCachedPrefabGraph_hit env g d gr hl]; exact hh
  | none =>
    have hne : h ≠ g := by
      rintro rfl
      rw [hl] at hh
      exact Option.noConfusion hh
    have hg := (GetCachedPrefabDocument_refreshed env.toEnv g d).graphs_eq
    by_cases he : (GetCachedPrefabDocument env.toEnv g d).1 = ""
    · rw [GetCachedPrefabGraph_miss_empty env g d hl he, hg]
      exact hh
    · rw [GetCachedPrefabGraph_miss_load env g d hl he]
      simp only []
      rw [ezMap.lookup_Assign_other _ _ _ _ hne, hg]
      exact hh

theorem GetCachedPrefabGraph_loop_keeps (env : DocumentEnv) (h : ezUuid)
    (graph : ezAbstractObjectGraph) (gs : List ezUuid) :
    ∀ d : ezDocument, d.m_CachedPrefabGraphs.lookup h = some graph →
      (gs.foldl (fun acc k => (GetCachedPrefabGraph env k acc).2) d).m_CachedPrefabGraphs.lookup h =
        some graph := by
  induction gs with
  | nil => intro d hd; exact hd
  | cons g rest ih =>
    intro d hd
    exact ih _ (GetCachedPrefabGraph_keeps env g h d graph hd)

end ezDocument

/-- C11: `GetCachedPrefabGraph` returns null exactly when the parsed-graph cache
has no entry for `g` and the raw content resolved for `g` is empty, and then it
leaves the parsed-graph cache as it is.  When it returns a graph and the cache
had no entry, the graph is the raw content parsed and it is stored under `g`;
after any further calls of `GetCachedPrefabGraph`, with any parser and any file
system, a call for `g` returns that same graph and changes nothing, so it
parses nothing. -/
theorem C11_cached_graph (env env' : DocumentEnv) (g : ezUuid) (gs : List ezUuid)
    (d : ezDocument) :
    ((ezDocument.GetCachedPrefabGraph env g d).1 = none ↔
      ezMap.Contains d.m_CachedPrefabGraphs g = false ∧
        (ezDocument.GetCachedPrefabDocument env.toEnv g d).1 = "") ∧
    ((ezDocument.GetCachedPrefabGraph env g d).1 = none →
      (ezDocument.GetCachedPrefabGraph env g d).2.m_CachedPrefabGraphs = d.m_CachedPrefabGraphs) ∧
    (∀ graph, (ezDocument.GetCachedPrefabGraph env g d).1 = some graph →
      (ezMap.Contains d.m_CachedPrefabGraphs g = false →
        graph = env.LoadGraph (ezDocument.GetCachedPrefabDocument env.toEnv g d).1) ∧
      (ezDocument.GetCachedPrefabGraph env g d).2.m_CachedPrefabGraphs.lookup g = some graph ∧
      ezDocument.GetCachedPrefabGraph env' g
          (gs.foldl (fun acc k => (ezDocument.GetCachedPrefabGraph env' k acc).2)
            (ezDocument.GetCachedPrefabGraph env g d).2) =
        (some graph,
          gs.foldl (fun acc k => (ezDocument.GetCachedPrefabGraph env' k acc).2)
            (ezDocument.GetCachedPrefabGraph env g d).2)) := by
  have hstored : ∀ graph, (ezDocument.GetCachedPrefabGraph env g d).1 = some graph →
      (ezDocument.GetCachedPrefabGraph env g d).2.m_CachedPrefabGraphs.lookup g = some graph := by
    intro graph hgr
    cases hl : d.m_CachedPrefabGraphs.lookup g with
    | some gr =>
      rw [ezDocument.GetCachedPrefabGraph_hit env g d gr hl] at hgr ⊢
      simp only [Option.some.injEq] at hgr
      rw [← hgr]
      exact hl
    | none =>
      by_cases he : (ezDocument.GetCachedPrefabDocument env.toEnv g d).1 = ""
      · rw [ezDocument.GetCachedPrefabGraph_miss_empty env g d hl he] at hgr
        exact Option.noConfusion hgr
      · rw [ezDocument.GetCachedPrefabGraph_miss_load env g d hl he] at hgr ⊢
        simp only [Option.some.injEq] at hgr
        rw [← hgr]
        exact ezMap.lookup_Assign_self _ _ _
  refine ⟨?_, ?_, ?_⟩
  · cases hl : d.m_CachedPrefabGraphs.lookup g with
    | some gr =>
      rw [ezDocument.GetCachedPrefabGraph_hit env g d gr hl]
      have hc : ezMap.Contains d.m_CachedPrefabGraphs g = true :=
        (ezMap.Contains_eq_true _ _).2 ⟨gr, hl⟩
      simp [hc]
    | none =>
      have hc : ezMap.Contains d.m_CachedPrefabGraphs g = false :=
        (ezMap.Contains_eq_false _ _).2 hl
      by_cases he : (ezDocument.GetCachedPrefabDocument env.toEnv g d).1 = ""
      · rw [ezDocument.GetCachedPrefabGraph_miss_empty env g d hl he]
        simp [hc, he]
      · rw [ezDocument.GetCachedPrefabGraph_miss_load env g d hl he]
        simp [he]
  · intro hnone
    cases hl : d.m_CachedPrefabGraphs.lookup g with
    | some gr =>
      rw [ezDocument.GetCachedPrefabGraph_hit env g d gr hl] at hnone
      exact Option.noConfusion hnone
    | none =>
      by_cases he : (ezDocument.GetCachedPrefabDocument env.toEnv g d).1 = ""
      · rw [ezDocument.GetCachedPrefabGraph_miss_empty env g d hl he]
        exact (ezDocument.GetCachedPrefabDocument_refreshed env.toEnv g d).graphs_eq
      · rw [ezDocument.GetCachedPrefabGraph_miss_load env g d hl he] at hnone
        exact Option.noConfusion hnone
  · intro graph hgr
    refine ⟨?_, hstored graph hgr, ?_⟩
    · intro hc
      have hl := (ezMap.Contains_eq_false _ _).1 hc
      by_cases he : (ezDocument.GetCachedPrefabDocument env.toEnv g d).1 = ""
      · rw [ezDocument.GetCachedPrefabGraph_miss_empty env g d hl he] at hgr
        exact Option.noConfusion hgr
      · rw [ezDocument.GetCachedPrefabGraph_miss_load env g d hl he] at hgr
        simp only [Option.some.injEq] at hgr
        exact hgr.symm
    · exact ezDocument.GetCachedPrefabGraph_hit env' g _ graph
        (ezDocument.GetCachedPrefabGraph_loop_keeps env' g graph gs _ (hstored graph hgr))

/-- Witness of C11 on the sample document: for `tA`, whose file cannot be read,
the result is null and the parsed-graph cache is as before. -/
theorem C11_cached_graph_witness :
    (ezDocument.GetCachedPrefabGraph Sample.docEnv Sample.tA Sample.doc).2.m_CachedPrefabGraphs =
      Sample.doc.m_CachedPrefabGraphs :=
  (C11_cached_graph Sample.docEnv Sample.docEnv Sample.tA [] Sample.doc).2.1 (by decide)

/-! ## `ReplaceByPrefab` and the creation of a prefab document -/

namespace ezDocument

/-- What `ReplaceByPrefab` does, for every object, file, template identity and seed. -/
theorem ReplaceByPrefab_eq (env : Env) (p : ezDocumentObjectPtr) (szFile : String)
    (T S : ezUuid) (d : ezDocument) :
    (ReplaceByPrefab env p szFile T S d).2 =
      { d with
        m_FileReads := d.m_FileReads ++ [szFile]
        m_CommandHistory := d.m_CommandHistory ++
          [ezHistoryEvent.StartTransaction "Replace by Prefab",
           ezHistoryEvent.AddCommand (ezCommand.Remove ⟨p.GetGuid⟩),
           ezHistoryEvent.AddCommand (ezCommand.Instantiate
             { m_bAllowPickedPosition := false
               m_CreateFromPrefab := T
               m_Parent := InstantiateParent p
               m_RemapGuid := S
               m_sJsonGraph := (env.m_FileSystem d.m_FileReads.length szFile).getD "" }),
           ezHistoryEvent.FinishTransaction] } := by
  simp only [ReplaceByPrefab, ReadDocumentAsString, StartTransaction, AddCommand,
    FinishTransaction]
  cases h : env.m_FileSystem d.m_FileReads.length szFile <;> simp

/-- The events `ReplaceByPrefab` appends to the command history. -/
theorem ReplaceByPrefab_events (env : Env) (p : ezDocumentObjectPtr) (szFile : String)
    (T S : ezUuid) (d : ezDocument) :
    NewEvents d (ReplaceByPrefab env p szFile T S d).2 =
      [ezHistoryEvent.StartTransaction "Replace by Prefab",
       ezHistoryEvent.AddCommand (ezCommand.Remove ⟨p.GetGuid⟩),
       ezHistoryEvent.AddCommand (ezCommand.Instantiate
         { m_bAllowPickedPosition := false
           m_CreateFromPrefab := T
           m_Parent := InstantiateParent p
           m_RemapGuid := S
           m_sJsonGraph := (env.m_FileSystem d.m_FileReads.length szFile).getD "" }),
       ezHistoryEvent.FinishTransaction] := by
  rw [NewEvents, ReplaceByPrefab_eq]
  simp

/-- The status of `CreatePrefabDocument`, step by step. -/
theorem CreatePrefabDocument_status (env : DocumentEnv) (szFile : String)
    (p : ezDocumentObjectPtr) (seed out : ezUuid) (mgr : List ezDocumentManagerCall) :
    (CreatePrefabDocument env szFile p seed out mgr).1 =
      if env.FindDocumentTypeFromPath szFile = false then
        ezStatus.Error ("Document type is unknown: '" ++ szFile ++ "'")
      else if env.EnsureDocumentIsClosed szFile = false then
        ezStatus.Error "Could not close the existing prefab document"
      else if (env.CreateDocument "ezPrefab" szFile).1.Failed = true then
        (env.CreateDocument "ezPrefab" szFile).1
      else env.SaveDocument (PrefabDocumentFor env szFile p seed) := by
  unfold CreatePrefabDocument
  cases h1 : env.FindDocumentTypeFromPath szFile
  · simp
  · cases h2 : env.EnsureDocumentIsClosed szFile
    · simp
    · cases h3 : (env.CreateDocument "ezPrefab" szFile).1.Failed
      · simp [h3, PrefabDocumentFor]
      · simp [h3]

/-- The identity `CreatePrefabDocument` leaves in `out_NewDocumentGuid` when it succeeds. -/
theorem CreatePrefabDocument_guid (env : DocumentEnv) (szFile : String)
    (p : ezDocumentObjectPtr) (seed out : ezUuid) (mgr : List ezDocumentManagerCall)
    (h : (CreatePrefabDocument env szFile p seed out mgr).1.Succeeded = true) :
    (CreatePrefabDocument env szFile p seed out mgr).2.1 =
      (env.CreateDocument "ezPrefab" szFile).2 := by
  unfold CreatePrefabDocument at h ⊢
  cases h1 : env.FindDocumentTypeFromPath szFile
  · simp [h1, ezStatus.Error, ezStatus.Succeeded] at h
  · cases h2 : env.EnsureDocumentIsClosed szFile
    · simp [h1, h2, ezStatus.Error, ezStatus.Succeeded] at h
    · cases h3 : (env.CreateDocument "ezPrefab" szFile).1.Failed
      · simp [h3]
      · simp [h1, h2, h3, ezStatus.Succeeded] at h
        simp [ezStatus.Failed, h] at h3

/-- The function `CreatePrefabDocumentFromSelection` on a selection of one object. -/
theorem CreatePrefabDocumentFromSelection_single (env : DocumentEnv) (szFile : String)
    (p : ezDocumentObjectPtr) (d : ezDocument) (mgr : List ezDocumentManagerCall) :
    CreatePrefabDocumentFromSelection env szFile [p] d mgr =
      if (CreatePrefabDocument env szFile p env.CreateNewUuid ezUuid.Invalid mgr).1.Succeeded = true
      then
        ((CreatePrefabDocument env szFile p env.CreateNewUuid ezUuid.Invalid mgr).1,
          (ReplaceByPrefab env.toEnv p szFile
            (CreatePrefabDocument env szFile p env.CreateNewUuid ezUuid.Invalid mgr).2.1
            env.CreateNewUuid d).2,
          (CreatePrefabDocument env szFile p env.CreateNewUuid ezUuid.Invalid mgr).2.2)
      else
        ((CreatePrefabDocument env szFile p env.CreateNewUuid ezUuid.Invalid mgr).1, d,
          (CreatePrefabDocument env szFile p env.CreateNewUuid ezUuid.Invalid mgr).2.2) := by
  simp [CreatePrefabDocumentFromSelection]

end ezDocument

/-- C12: when the top-level selection does not hold exactly one object,
`CreatePrefabDocumentFromSelection` returns a failure status, makes no call on
the document manager (so it creates no template document) and returns the
edited document as it was, command history, object tree and meta data
included. -/
theorem C12_invalid_selection (env : DocumentEnv) (szFile : String)
    (Selection : List ezDocumentObjectPtr) (d : ezDocument) (mgr : List ezDocumentManagerCall)
    (h : Selection.length ≠ 1) :
    (ezDocument.CreatePrefabDocumentFromSelection env szFile Selection d mgr).1.Failed = true ∧
    (ezDocument.CreatePrefabDocumentFromSelection env szFile Selection d mgr).2.1 = d ∧
    (ezDocument.CreatePrefabDocumentFromSelection env szFile Selection d mgr).2.2 = mgr := by
  simp [ezDocument.CreatePrefabDocumentFromSelection, h, ezStatus.Error, ezStatus.Failed]

/-- Witness of C12 on the sample document, for the selection of `A` and `D`. -/
theorem C12_invalid_selection_witness :
    (ezDocument.CreatePrefabDocumentFromSelection Sample.docEnv "b.ezPrefab"
        [Sample.ptrA, Sample.ptrD] Sample.doc []).1.Failed = true ∧
    (ezDocument.CreatePrefabDocumentFromSelection Sample.docEnv "b.ezPrefab"
        [Sample.ptrA, Sample.ptrD] Sample.doc []).2.1 = Sample.doc ∧
    (ezDocument.CreatePrefabDocumentFromSelection Sample.docEnv "b.ezPrefab"
        [Sample.ptrA, Sample.ptrD] Sample.doc []).2.2 = [] :=
  C12_invalid_selection Sample.docEnv "b.ezPrefab" [Sample.ptrA, Sample.ptrD] Sample.doc []
    (by decide)

/-- C13: for a selection of one object, `CreatePrefabDocumentFromSelection`
returns the status of `CreatePrefabDocument`, which succeeds exactly when the
document type is known, the existing document is closed, the document is
created and the document is saved, and which otherwise is the failure of the
first of these steps that fails; when it fails the edited document is returned
as it was (no command is emitted), and when it succeeds the events appended
are the one transaction of `ReplaceByPrefab`. -/
theorem C13_create_prefab_all_or_nothing (env : DocumentEnv) (szFile : String)
    (p : ezDocumentObjectPtr) (d : ezDocument) (mgr : List ezDocumentManagerCall) :
    (ezDocument.CreatePrefabDocumentFromSelection env szFile [p] d mgr).1 =
      (if env.FindDocumentTypeFromPath szFile = false then
        ezStatus.Error ("Document type is unknown: '" ++ szFile ++ "'")
      else if env.EnsureDocumentIsClosed szFile = false then
        ezStatus.Error "Could not close the existing prefab document"
      else if (env.CreateDocument "ezPrefab" szFile).1.Failed = true then
        (env.CreateDocument "ezPrefab" szFile).1
      else env.SaveDocument (PrefabDocumentFor env szFile p env.CreateNewUuid)) ∧
    ((ezDocument.CreatePrefabDocumentFromSelection env szFile [p] d mgr).1.Succeeded = true ↔
      env.FindDocumentTypeFromPath szFile = true ∧ env.EnsureDocumentIsClosed szFile = true ∧
        (env.CreateDocument "ezPrefab" szFile).1.Succeeded = true ∧
        (env.SaveDocument (PrefabDocumentFor env szFile p env.CreateNewUuid)).Succeeded = true) ∧
    ((ezDocument.CreatePrefabDocumentFromSelection env szFile [p] d mgr).1.Succeeded = false →
      (ezDocument.CreatePrefabDocumentFromSelection env szFile [p] d mgr).2.1 = d) ∧
    ((ezDocument.CreatePrefabDocumentFromSelection env szFile [p] d mgr).1.Succeeded = true →
      NewEvents d (ezDocument.CreatePrefabDocumentFromSelection env szFile [p] d mgr).2.1 =
        [ezHistoryEvent.StartTransaction "Replace by Prefab",
         ezHistoryEvent.AddCommand (ezCommand.Remove ⟨p.GetGuid⟩),
         ezHistoryEvent.AddCommand (ezCommand.Instantiate
           { m_bAllowPickedPosition := false
             m_CreateFromPrefab := (env.CreateDocument "ezPrefab" szFile).2
             m_Parent := ezDocument.InstantiateParent p
             m_RemapGuid := env.CreateNewUuid
             m_sJsonGraph := (env.m_FileSystem d.m_FileReads.length szFile).getD "" }),
         ezHistoryEvent.FinishTransaction]) := by
  have hs : (ezDocument.CreatePrefabDocumentFromSelection env szFile [p] d mgr).1 =
      (ezDocument.CreatePrefabDocument env szFile p env.CreateNewUuid ezUuid.Invalid mgr).1 := by
    rw [ezDocument.CreatePrefabDocumentFromSelection_single]
    split <;> rfl
  refine ⟨?_, ?_, ?_, ?_⟩
  · rw [hs, ezDocument.CreatePrefabDocument_status]
  · rw [hs, ezDocument.CreatePrefabDocument_status]
    cases h1 : env.FindDocumentTypeFromPath szFile
    · simp [ezStatus.Error, ezStatus.Succeeded]
    · cases h2 : env.EnsureDocumentIsClosed szFile
      · simp [ezStatus.Error, ezStatus.Succeeded]
      · cases h3 : (env.CreateDocument "ezPrefab" szFile).1.m_Result
        · simp [ezStatus.Failed, ezStatus.Succeeded, h3]
        · simp [ezStatus.Failed, ezStatus.Succeeded, h3]
  · intro hf
    rw [hs] at hf
    rw [ezDocument.CreatePrefabDocumentFromSelection_single]
    simp [hf]
  · intro hsucc
    rw [hs] at hsucc
    rw [ezDocument.CreatePrefabDocumentFromSelection_single]
    simp only [hsucc, if_true]
    rw [ezDocument.ReplaceByPrefab_events, ezDocument.CreatePrefabDocument_guid _ _ _ _ _ _ hsucc]

/-- Witness of C13 on the sample document: when the prefab document of `D`
cannot be saved, the status is that failure and the edited document is as it
was. -/
theorem C13_create_prefab_all_or_nothing_witness :
    (ezDocument.CreatePrefabDocumentFromSelection Sample.docEnvSaveFails "b.ezPrefab"
        [Sample.ptrD] Sample.doc []).2.1 = Sample.doc :=
  (C13_create_prefab_all_or_nothing Sample.docEnvSaveFails "b.ezPrefab" Sample.ptrD Sample.doc
    []).2.2.1 (by decide)

/-- C14, as the claim states it, fails on the sample document: the file
`a.ezPrefab` cannot be read, and still `ReplaceByPrefab` emits the Remove
command for `D`, followed by an Instantiate command with empty graph text. -/
theorem C14_unreadable_file_still_removes :
    Sample.env.m_FileSystem Sample.doc.m_FileReads.length "a.ezPrefab" = none ∧
    NewEvents Sample.doc
        (ezDocument.ReplaceByPrefab Sample.env Sample.ptrD "a.ezPrefab" Sample.tA Sample.sD
          Sample.doc).2 =
      [ezHistoryEvent.StartTransaction "Replace by Prefab",
       ezHistoryEvent.AddCommand (ezCommand.Remove ⟨Sample.gD⟩),
       ezHistoryEvent.AddCommand (ezCommand.Instantiate
         ⟨false, Sample.tA, ezUuid.Invalid, Sample.sD, ""⟩),
       ezHistoryEvent.FinishTransaction] := by
  decide

/-- C14, amended: `ReplaceByPrefab` has no failure path.  For every object and
every template file, readable or not, it returns the identity the Instantiate
command reports and emits, in one transaction, the Remove command of the
object followed by the Instantiate command whose graph text is what the read
of the file delivers; for a file that cannot be read that text is the empty
string. -/
theorem C14_replace_unreadable_file (env : Env) (p : ezDocumentObjectPtr) (szFile : String)
    (T S : ezUuid) (d : ezDocument) :
    ((ezDocument.ReplaceByPrefab env p szFile T S d).1 =
      env.CreatedRootObject
        { m_bAllowPickedPosition := false
          m_CreateFromPrefab := T
          m_Parent := ezDocument.InstantiateParent p
          m_RemapGuid := S
          m_sJsonGraph := (env.m_FileSystem d.m_FileReads.length szFile).getD "" } ∧
    NewEvents d (ezDocument.ReplaceByPrefab env p szFile T S d).2 =
      [ezHistoryEvent.StartTransaction "Replace by Prefab",
       ezHistoryEvent.AddCommand (ezCommand.Remove ⟨p.GetGuid⟩),
       ezHistoryEvent.AddCommand (ezCommand.Instantiate
         { m_bAllowPickedPosition := false
           m_CreateFromPrefab := T
           m_Parent := ezDocument.InstantiateParent p
           m_RemapGuid := S
           m_sJsonGraph := (env.m_FileSystem d.m_FileReads.length szFile).getD "" }),
       ezHistoryEvent.FinishTransaction]) ∧
    (env.m_FileSystem d.m_FileReads.length szFile = none →
      (ezDocument.ReplaceByPrefab env p szFile T S d).1 =
        env.CreatedRootObject
          { m_bAllowPickedPosition := false
            m_CreateFromPrefab := T
            m_Parent := ezDocument.InstantiateParent p
            m_RemapGuid := S
            m_sJsonGraph := "" } ∧
      NewEvents d (ezDocument.ReplaceByPrefab env p szFile T S d).2 =
        [ezHistoryEvent.StartTransaction "Replace by Prefab",
         ezHistoryEvent.AddCommand (ezCommand.Remove ⟨p.GetGuid⟩),
         ezHistoryEvent.AddCommand (ezCommand.Instantiate
           { m_bAllowPickedPosition := false
             m_CreateFromPrefab := T
             m_Parent := ezDocument.InstantiateParent p
             m_RemapGuid := S
             m_sJsonGraph := "" }),
         ezHistoryEvent.FinishTransaction]) := by
  refine ⟨⟨?_, ezDocument.ReplaceByPrefab_events env p szFile T S d⟩, ?_⟩
  · cases h : env.m_FileSystem d.m_FileReads.length szFile <;>
      simp [ezDocument.ReplaceByPrefab, ezDocument.ReadDocumentAsString,
        ezDocument.StartTransaction, h]
  · intro hread
    constructor
    · simp [ezDocument.ReplaceByPrefab, ezDocument.ReadDocumentAsString,
        ezDocument.StartTransaction, hread]
    · rw [ezDocument.ReplaceByPrefab_events, hread]
      rfl

/-- Witness of C14 (amended) on the sample document, for `D` and the file
`a.ezPrefab`. -/
theorem C14_replace_unreadable_file_witness :
    (ezDocument.ReplaceByPrefab Sample.env Sample.ptrD "a.ezPrefab" Sample.tA Sample.sD
        Sample.doc).1 =
      Sample.env.CreatedRootObject
        { m_bAllowPickedPosition := false
          m_CreateFromPrefab := Sample.tA
          m_Parent := ezDocument.InstantiateParent Sample.ptrD
          m_RemapGuid := Sample.sD
          m_sJsonGraph := "" } ∧
    NewEvents Sample.doc
        (ezDocument.ReplaceByPrefab Sample.env Sample.ptrD "a.ezPrefab" Sample.tA Sample.sD
          Sample.doc).2 =
      [ezHistoryEvent.StartTransaction "Replace by Prefab",
       ezHistoryEvent.AddCommand (ezCommand.Remove ⟨Sample.ptrD.GetGuid⟩),
       ezHistoryEvent.AddCommand (ezCommand.Instantiate
         { m_bAllowPickedPosition := false
           m_CreateFromPrefab := Sample.tA
           m_Parent := ezDocument.InstantiateParent Sample.ptrD
           m_RemapGuid := Sample.sD
           m_sJsonGraph := "" }),
       ezHistoryEvent.FinishTransaction] :=
  (C14_replace_unreadable_file Sample.env Sample.ptrD "a.ezPrefab" Sample.tA Sample.sD
    Sample.doc).2 (by decide)

/-- C15: the events `ReplaceByPrefab` appends to the command history are
StartTransaction, the Remove command of the object, the Instantiate command
with the given template identity and seed and, as graph text, what the read of
the given file delivers at that moment, FinishTransaction, and nothing else;
the file is opened once, both caches stay as they are, and the events are the
same whatever the caches hold. -/
theorem C15_replace_trace (env : Env) (p : ezDocumentObjectPtr) (szFile : String)
    (T S : ezUuid) (d : ezDocument) (c : List (ezUuid × String))
    (cg : List (ezUuid × ezAbstractObjectGraph)) :
    (ezDocument.ReplaceByPrefab env p szFile T S d).2.m_CommandHistory =
      d.m_CommandHistory ++ NewEvents d (ezDocument.ReplaceByPrefab env p szFile T S d).2 ∧
    NewEvents d (ezDocument.ReplaceByPrefab env p szFile T S d).2 =
      [ezHistoryEvent.StartTransaction "Replace by Prefab",
       ezHistoryEvent.AddCommand (ezCommand.Remove ⟨p.GetGuid⟩),
       ezHistoryEvent.AddCommand (ezCommand.Instantiate
         { m_bAllowPickedPosition := false
           m_CreateFromPrefab := T
           m_Parent := ezDocument.InstantiateParent p
           m_RemapGuid := S
           m_sJsonGraph := (env.m_FileSystem d.m_FileReads.length szFile).getD "" }),
       ezHistoryEvent.FinishTransaction] ∧
    (ezDocument.ReplaceByPrefab env p szFile T S d).2.m_FileReads = d.m_FileReads ++ [szFile] ∧
    (ezDocument.ReplaceByPrefab env p szFile T S d).2.m_CachedPrefabDocuments =
      d.m_CachedPrefabDocuments ∧
    (ezDocument.ReplaceByPrefab env p szFile T S d).2.m_CachedPrefabGraphs =
      d.m_CachedPrefabGraphs ∧
    NewEvents { d with m_CachedPrefabDocuments := c, m_CachedPrefabGraphs := cg }
        (ezDocument.ReplaceByPrefab env p szFile T S
          { d with m_CachedPrefabDocuments := c, m_CachedPrefabGraphs := cg }).2 =
      NewEvents d (ezDocument.ReplaceByPrefab env p szFile T S d).2 := by
  refine ⟨?_, ezDocument.ReplaceByPrefab_events env p szFile T S d, ?_, ?_, ?_, ?_⟩
  · rw [ezDocument.ReplaceByPrefab_events, ezDocument.ReplaceByPrefab_eq]
  · rw [ezDocument.ReplaceByPrefab_eq]
  · rw [ezDocument.ReplaceByPrefab_eq]
  · rw [ezDocument.ReplaceByPrefab_eq]
  · rw [ezDocument.ReplaceByPrefab_events, ezDocument.ReplaceByPrefab_events]

namespace ezDocument

end ezDocument

theorem lookup_map_value (f : String → String → String) (P : String) :
    ∀ l : List (String × String),
      (l.map fun pv => (pv.1, f pv.1 pv.2)).lookup P = (l.lookup P).map (f P)
  | [] => rfl
  | (k, v) :: rest => by
    by_cases h : P = k
    · subst h
      simp [List.lookup]
    · have hb : (P == k) = false := by simpa using h
      simp only [List.map_cons, List.lookup, hb]
      exact lookup_map_value f P rest

/-- C19: for a node present in the base template, the new template and the
instance and a property `P` of it, the merged node holds for `P` the value of
the instance when it differs from the value of the base, and the value of the
new template otherwise; base 5 / new 5 / instance 9 gives 9, base 5 / new 7 /
instance 5 gives 7, base 5 / new 7 / instance 9 gives 9. -/
theorem C19_merge_property_rule (b n i : ezAbstractObjectNode) (P vb vn vi : String)
    (hb : b.m_Properties.lookup P = some vb) (hn : n.m_Properties.lookup P = some vn)
    (hi : i.m_Properties.lookup P = some vi) :
    (MergeNode b n i).m_Properties.lookup P = some (if vi ≠ vb then vi else vn) ∧
    MergeProperty "5" "5" "9" = "9" ∧ MergeProperty "5" "7" "5" = "7" ∧
    MergeProperty "5" "7" "9" = "9" := by
  refine ⟨?_, by decide, by decide, by decide⟩
  have h := lookup_map_value
    (fun k v => match i.m_Properties.lookup k, b.m_Properties.lookup k with
      | some vi, some vb => MergeProperty vb v vi
      | some vi, none => vi
      | none, _ => v) P n.m_Properties
  simp only [MergeNode]
  rw [h, hn]
  simp [hi, hb, MergeProperty]

/-- Witness of C19 on the sample nodes: base 5, new 7, instance 9. -/
theorem C19_merge_property_rule_witness :
    (MergeNode Sample.nodeBase Sample.nodeNew Sample.nodeInstance).m_Properties.lookup "P" =
      some (if "9" ≠ "5" then "9" else "7") :=
  (C19_merge_property_rule Sample.nodeBase Sample.nodeNew Sample.nodeInstance "P" "5" "7" "9"
    (by decide) (by decide) (by decide)).1

/-! ## `ezArrayMapBase` -/

namespace ezArrayMapBase

/-- Erasing the element at an index takes exactly that element away. -/
theorem eraseIdx_perm {KEY VALUE : Type} :
    ∀ (l : List (Pair KEY VALUE)) (i : Nat) (p : Pair KEY VALUE), l[i]? = some p →
      List.Perm l (p :: l.eraseIdx i)
  | [], i, p => by simp
  | q :: rest, 0, p => by
    intro h
    simp only [List.getElem?_cons_zero, Option.some.injEq] at h
    subst h
    simp
  | q :: rest, i + 1, p => by
    intro h
    have h' : rest[i]? = some p := by simpa using h
    have ih := eraseIdx_perm rest i p h'
    simp only [List.eraseIdx_cons_succ]
    exact (List.Perm.cons q ih).trans (List.Perm.swap p q _)

variable {KEY VALUE : Type} [LinearOrder KEY]

/-- Sorting keeps the elements of the array. -/
theorem SortData_perm (m : ezArrayMapBase KEY VALUE) :
    List.Perm (SortData m).m_Data m.m_Data := by
  unfold SortData
  by_cases h : m.m_bSorted = true
  · simp [h]
  · simp only [h, Bool.false_eq_true, if_false]
    exact List.perm_insertionSort _ _

theorem FindIndex_eq_none (key : KEY) :
    ∀ l : List (Pair KEY VALUE), FindIndex key l = none ↔ ∀ p ∈ l, p.key ≠ key
  | [] => by simp [FindIndex]
  | q :: rest => by
    by_cases h : q.key = key
    · simp [FindIndex, h]
    · simp [FindIndex, h, FindIndex_eq_none key rest]

theorem FindIndex_eq_some (key : KEY) :
    ∀ (l : List (Pair KEY VALUE)) (i : Nat), FindIndex key l = some i →
      ∃ p, l[i]? = some p ∧ p.key = key
  | [], i => by simp [FindIndex]
  | q :: rest, i => by
    intro h
    by_cases hq : q.key = key
    · simp only [FindIndex, hq, if_true, Option.some.injEq] at h
      subst h
      exact ⟨q, by simp, hq⟩
    · simp only [FindIndex, hq, if_false, Option.map_eq_some'] at h
      obtain ⟨j, hj, hji⟩ := h
      obtain ⟨p, hp, hpk⟩ := FindIndex_eq_some key rest j hj
      subst hji
      exact ⟨p, by simpa using hp, hpk⟩

/-- The result of `Find` names an element with the key exactly when there is one. -/
theorem Find_isSome (key : KEY) (m : ezArrayMapBase KEY VALUE) :
    (Find key m).1.isSome = true ↔ ∃ p ∈ m.m_Data, p.key = key := by
  have hperm := SortData_perm m
  cases h : (Find key m).1 with
  | none =>
    have h' : FindIndex key (SortData m).m_Data = none := h
    rw [FindIndex_eq_none] at h'
    simp only [Option.isSome_none, Bool.false_eq_true, false_iff, not_exists, not_and]
    intro p hp
    exact h' p (hperm.mem_iff.2 hp)
  | some i =>
    have h' : FindIndex key (SortData m).m_Data = some i := h
    obtain ⟨p, hp, hk⟩ := FindIndex_eq_some key _ i h'
    simp only [Option.isSome_some, true_iff]
    exact ⟨p, hperm.mem_iff.1 (List.mem_iff_getElem?.2 ⟨i, hp⟩), hk⟩

end ezArrayMapBase

/-- C21: `Insert` always adds a new element: the count after it is the count
before plus one, also when the key is already present; the elements that were
there are kept and the new pair is added (nothing is overwritten), and
`Contains` holds for the key afterwards. -/
theorem C21_insert_adds {KEY VALUE : Type} [LinearOrder KEY] (key : KEY) (value : VALUE)
    (m : ezArrayMapBase KEY VALUE) :
    ezArrayMapBase.GetCount (ezArrayMapBase.Insert key value m).2 =
      ezArrayMapBase.GetCount m + 1 ∧
    ((ezArrayMapBase.Contains key m).1 = true →
      ezArrayMapBase.GetCount (ezArrayMapBase.Insert key value m).2 =
        ezArrayMapBase.GetCount m + 1) ∧
    (ezArrayMapBase.Insert key value m).2.m_Data = m.m_Data ++ [⟨key, value⟩] ∧
    (ezArrayMapBase.Contains key (ezArrayMapBase.Insert key value m).2).1 = true := by
  have hc : ezArrayMapBase.GetCount (ezArrayMapBase.Insert key value m).2 =
      ezArrayMapBase.GetCount m + 1 := by
    simp [ezArrayMapBase.GetCount, ezArrayMapBase.Insert]
  refine ⟨hc, fun _ => hc, rfl, ?_⟩
  unfold ezArrayMapBase.Contains
  rw [ezArrayMapBase.Find_isSome]
  exact ⟨⟨key, value⟩, by simp [ezArrayMapBase.Insert], rfl⟩

/-- Witness of C21 on the sample map: the key 2 is present and is inserted again. -/
theorem C21_insert_adds_witness :
    ezArrayMapBase.GetCount (ezArrayMapBase.Insert 2 "e" Sample.arrayMap).2 =
      ezArrayMapBase.GetCount Sample.arrayMap + 1 :=
  (C21_insert_adds 2 "e" Sample.arrayMap).2.1 (by decide)

/-- C22: `Remove(key)` returns true exactly when the map holds an element with
the key (which is when `Contains` holds).  When it returns true, one element
with the key is taken away and all the others are kept, so the count goes down
by one; when it returns false, the map holds the elements it held before. -/
theorem C22_remove_one {KEY VALUE : Type} [LinearOrder KEY] (key : KEY) (bKeepSorted : Bool)
    (m : ezArrayMapBase KEY VALUE) :
    ((ezArrayMapBase.Remove key bKeepSorted m).1 = true ↔ ∃ p ∈ m.m_Data, p.key = key) ∧
    (ezArrayMapBase.Remove key bKeepSorted m).1 = (ezArrayMapBase.Contains key m).1 ∧
    ((ezArrayMapBase.Remove key bKeepSorted m).1 = true →
      ∃ p, p.key = key ∧
        List.Perm m.m_Data (p :: (ezArrayMapBase.Remove key bKeepSorted m).2.m_Data) ∧
        ezArrayMapBase.GetCount (ezArrayMapBase.Remove key bKeepSorted m).2 + 1 =
          ezArrayMapBase.GetCount m) ∧
    ((ezArrayMapBase.Remove key bKeepSorted m).1 = false →
      List.Perm (ezArrayMapBase.Remove key bKeepSorted m).2.m_Data m.m_Data ∧
        ezArrayMapBase.GetCount (ezArrayMapBase.Remove key bKeepSorted m).2 =
          ezArrayMapBase.GetCount m) := by
  have hperm := ezArrayMapBase.SortData_perm m
  have hsome := ezArrayMapBase.Find_isSome key m
  cases h : (ezArrayMapBase.Find key m).1 with
  | none =>
    have hr : ezArrayMapBase.Remove key bKeepSorted m = (false, (ezArrayMapBase.Find key m).2) := by
      simp [ezArrayMapBase.Remove, h]
    rw [h] at hsome
    rw [hr]
    refine ⟨?_, ?_, ?_, ?_⟩
    · simpa using hsome
    · simp [ezArrayMapBase.Contains, h]
    · intro hf
      exact absurd hf (by simp)
    · intro _
      exact ⟨hperm, by simpa [ezArrayMapBase.GetCount, ezArrayMapBase.Find] using hperm.length_eq⟩
  | some i =>
    have hr : ezArrayMapBase.Remove key bKeepSorted m =
        (true, ezArrayMapBase.RemoveAt i bKeepSorted (ezArrayMapBase.Find key m).2) := by
      simp [ezArrayMapBase.Remove, h]
    have h' : ezArrayMapBase.FindIndex key (ezArrayMapBase.SortData m).m_Data = some i := h
    obtain ⟨p, hp, hk⟩ := ezArrayMapBase.FindIndex_eq_some key _ i h'
    have he := ezArrayMapBase.eraseIdx_perm _ i p hp
    rw [h] at hsome
    rw [hr]
    refine ⟨?_, ?_, ?_, ?_⟩
    · simpa using hsome
    · simp [ezArrayMapBase.Contains, h]
    · intro _
      refine ⟨p, hk, hperm.symm.trans he, ?_⟩
      have hl := (hperm.symm.trans he).length_eq
      simp only [List.length_cons] at hl
      simpa [ezArrayMapBase.GetCount, ezArrayMapBase.RemoveAt, ezArrayMapBase.Find] using hl.symm
    · intro hf
      exact absurd hf (by simp)

/-- Witness of C22 on the sample map: the key 2 is stored twice, one of the two
is removed. -/
theorem C22_remove_one_witness :
    ∃ p : ezArrayMapBase.Pair Nat String, p.key = 2 ∧
      List.Perm Sample.arrayMap.m_Data
        (p :: (ezArrayMapBase.Remove 2 false Sample.arrayMap).2.m_Data) ∧
      ezArrayMapBase.GetCount (ezArrayMapBase.Remove 2 false Sample.arrayMap).2 + 1 =
        ezArrayMapBase.GetCount Sample.arrayMap :=
  (C22_remove_one 2 false Sample.arrayMap).2.2.1 (by decide)

/-! ## The parent named by the Instantiate command -/

mutual

/-- The pointer the spec's `WalkTree` builds for an instance names its real
parent: the object one step up the path, which is the root exactly for a path
of length one. -/
theorem WalkTree_parent (md : ezUuid → ezDocumentObjectMetaData) (p : ezDocumentObjectPtr) :
    ∀ (o : ezDocumentObject) (b : Bool), p ∈ WalkTree md b o →
      ∃ path parent, path ≠ [] ∧ ObjectAt o path = some p.m_pObject ∧
        ObjectAt o path.dropLast = some parent ∧ p.m_ParentGuid = parent.GetGuid ∧
        p.m_bParentIsRoot = (b && decide (path.length = 1))
  | .mk g t ps cs, b => by
    intro h
    rw [WalkTree] at h
    obtain ⟨i, c, hi, hp⟩ := WalkTreeChildren_parent md p cs b g h
    have hc : (ezDocumentObject.mk g t ps cs).GetChildren[i]? = some c := hi
    rcases hp with hp | ⟨path, parent, hne, hobj, hpar, hguid, hflag⟩
    · subst hp
      refine ⟨[i], .mk g t ps cs, by simp, ?_, ?_, rfl, by simp⟩
      · rw [ObjectAt_cons _ i [] c hc]; rfl
      · rfl
    · refine ⟨i :: path, parent, by simp, ?_, ?_, hguid, ?_⟩
      · rw [ObjectAt_cons _ i path c hc]; exact hobj
      · cases path with
        | nil => exact absurd rfl hne
        | cons j rest =>
          rw [List.dropLast_cons₂, ObjectAt_cons _ i _ c hc]
          exact hpar
      · cases path with
        | nil => exact absurd rfl hne
        | cons j rest => simp [hflag]

theorem WalkTreeChildren_parent (md : ezUuid → ezDocumentObjectMetaData)
    (p : ezDocumentObjectPtr) :
    ∀ (cs : List ezDocumentObject) (b : Bool) (pg : ezUuid), p ∈ WalkTreeChildren md b pg cs →
      ∃ (i : Nat) (c : ezDocumentObject), cs[i]? = some c ∧
        (p = ⟨c, b, pg⟩ ∨
          ∃ path parent, path ≠ [] ∧ ObjectAt c path = some p.m_pObject ∧
            ObjectAt c path.dropLast = some parent ∧ p.m_ParentGuid = parent.GetGuid ∧
            p.m_bParentIsRoot = false)
  | [], b, pg => by
    intro h
    simp [WalkTreeChildren] at h
  | c :: rest, b, pg => by
    intro h
    rw [WalkTreeChildren, List.mem_append] at h
    rcases h with h | h
    · by_cases hv : HasValidTemplate md c = true
      · simp only [hv, if_true, List.mem_singleton] at h
        exact ⟨0, c, by simp, Or.inl h⟩
      · simp only [hv] at h
        obtain ⟨path, parent, hne, hobj, hpar, hguid, hflag⟩ := WalkTree_parent md p c false h
        exact ⟨0, c, by simp, Or.inr ⟨path, parent, hne, hobj, hpar, hguid, by simpa using hflag⟩⟩
    · obtain ⟨i, c', hi, hp⟩ := WalkTreeChildren_parent md p rest b pg h
      exact ⟨i + 1, c', by simpa using hi, hp⟩

end

/-- C23: the one Instantiate command of `ReplaceByPrefab`, of `RevertPrefab` (for
an object with a valid template identity) and of `UpdatePrefabObject` names as
parent the invalid identity when the parent of the replaced object is the root
object and the identity of the parent otherwise, by the same rule in all
three, and has picked-position placement disabled; for an instance that
`UpdatePrefabs` updates, the parent so named is the object one step up in the
tree, and it is the root exactly when the instance is a direct child of the
root. -/
theorem C23_instantiate_parent (env : Env) (p : ezDocumentObjectPtr) (szFile szBase : String)
    (T S : ezUuid) (d : ezDocument) :
    (InstantiateCommands (NewEvents d (ezDocument.ReplaceByPrefab env p szFile T S d).2)).map
        (fun cmd => (cmd.m_Parent, cmd.m_bAllowPickedPosition)) =
      [(if p.m_bParentIsRoot then ezUuid.Invalid else p.m_ParentGuid, false)] ∧
    ((d.m_DocumentObjectMetaData p.GetGuid).m_CreateFromPrefab.IsValid = true →
      (InstantiateCommands (NewEvents d (ezDocument.RevertPrefab env p d).2)).map
          (fun cmd => (cmd.m_Parent, cmd.m_bAllowPickedPosition)) =
        [(if p.m_bParentIsRoot then ezUuid.Invalid else p.m_ParentGuid, false)]) ∧
    (InstantiateCommands (NewEvents d (ezDocument.UpdatePrefabObject env p T S szBase d))).map
        (fun cmd => (cmd.m_Parent, cmd.m_bAllowPickedPosition)) =
      [(if p.m_bParentIsRoot then ezUuid.Invalid else p.m_ParentGuid, false)] ∧
    (∀ q ∈ WalkTree d.m_DocumentObjectMetaData true d.m_pRootObject,
      ∃ path parent, path ≠ [] ∧ ObjectAt d.m_pRootObject path = some q.m_pObject ∧
        ObjectAt d.m_pRootObject path.dropLast = some parent ∧
        q.m_ParentGuid = parent.GetGuid ∧ (q.m_bParentIsRoot = true ↔ path.length = 1)) := by
  refine ⟨?_, ?_, ?_, ?_⟩
  · rw [ezDocument.ReplaceByPrefab_events]
    simp [InstantiateCommands, ezDocument.InstantiateParent]
  · intro hv
    have hf := (ezDocument.GetCachedPrefabDocument_frame env
      (d.m_DocumentObjectMetaData p.GetGuid).m_CreateFromPrefab d).1
    simp [NewEvents, InstantiateCommands, ezDocument.RevertPrefab, hv, ezDocument.AddCommand, hf,
      ezDocument.InstantiateParent]
  · have hf := (ezDocument.GetCachedPrefabDocument_frame env T d).1
    simp [NewEvents, InstantiateCommands, ezDocument.UpdatePrefabObject, ezDocument.AddCommand, hf,
      ezDocument.InstantiateParent]
  · intro q hq
    obtain ⟨path, parent, hne, hobj, hpar, hguid, hflag⟩ := WalkTree_parent _ q _ true hq
    exact ⟨path, parent, hne, hobj, hpar, hguid, by simp [hflag]⟩

/-- Witness of C23 on the sample document: reverting `B`, whose parent is `P`. -/
theorem C23_instantiate_parent_witness :
    (InstantiateCommands (NewEvents Sample.doc
        (ezDocument.RevertPrefab Sample.env Sample.ptrB Sample.doc).2)).map
        (fun cmd => (cmd.m_Parent, cmd.m_bAllowPickedPosition)) =
      [(if Sample.ptrB.m_bParentIsRoot then ezUuid.Invalid else Sample.ptrB.m_ParentGuid, false)] :=
  (C23_instantiate_parent Sample.env Sample.ptrB "b.ezPrefab" "baseB" Sample.tB Sample.sB
    Sample.doc).2.1 (by decide)

/-! ## `GetImportModes` -/

/-- C24: the entries `GetImportModes` appends are a first entry with
`DefaultPriority` followed by entries that all have `LowPriority`; no name
occurs twice among them and all carry the same output file.  There are 7 of
them when the file is classified as Diffuse, Normal, Roughness, AO, Metalness,
Height or Linear, and 8 when it is classified as HDR or not classified; a path
with the extension `hdr` is classified as HDR whatever its name ends with, and
for a file that is not classified the first entry has an empty name. -/
theorem C24_import_modes (env : PathEnv) (szPath : String)
    (out_Modes : List ezAssetDocumentGenerator.Info) :
    ezTextureAssetDocumentGenerator.GetImportModes env szPath out_Modes =
      out_Modes ++ AppendedModes env szPath out_Modes ∧
    (∃ first rest, AppendedModes env szPath out_Modes = first :: rest ∧
      first.m_Priority = ezAssetDocGeneratorPriority.DefaultPriority ∧
      (∀ m ∈ rest, m.m_Priority = ezAssetDocGeneratorPriority.LowPriority) ∧
      (ezTextureAssetDocumentGenerator.GetTextureType env szPath = TextureType.Unknown →
        first.m_sName = "")) ∧
    ((AppendedModes env szPath out_Modes).map (·.m_sName)).Nodup ∧
    (∀ m ∈ AppendedModes env szPath out_Modes,
      m.m_sOutputFileParentRelative =
        env.ChangeFileExtension szPath env.GetDocumentExtension) ∧
    (AppendedModes env szPath out_Modes).length =
      (if ezTextureAssetDocumentGenerator.GetTextureType env szPath = TextureType.HDR ∨
          ezTextureAssetDocumentGenerator.GetTextureType env szPath = TextureType.Unknown
        then 8 else 7) ∧
    (env.HasExtension szPath "hdr" = true →
      ezTextureAssetDocumentGenerator.GetTextureType env szPath = TextureType.HDR) := by
  have hhdr : env.HasExtension szPath "hdr" = true →
      ezTextureAssetDocumentGenerator.GetTextureType env szPath = TextureType.HDR := by
    intro h
    simp [ezTextureAssetDocumentGenerator.GetTextureType, h]
  refine ⟨?_, ?_, ?_, ?_, ?_, hhdr⟩
  · simp only [AppendedModes, ezTextureAssetDocumentGenerator.GetImportModes]
    cases ezTextureAssetDocumentGenerator.GetTextureType env szPath <;> simp
  · simp only [AppendedModes, ezTextureAssetDocumentGenerator.GetImportModes]
    cases ezTextureAssetDocumentGenerator.GetTextureType env szPath <;>
      simp only [List.append_assoc, List.drop_left, ne_eq, reduceCtorEq, not_false_eq_true,
        not_true_eq_false, if_true, if_false, List.singleton_append, List.cons_append,
        List.nil_append] <;>
      exact ⟨_, _, rfl, rfl, by simp, by simp⟩
  · simp only [AppendedModes, ezTextureAssetDocumentGenerator.GetImportModes]
    cases ezTextureAssetDocumentGenerator.GetTextureType env szPath <;> simp
  · simp only [AppendedModes, ezTextureAssetDocumentGenerator.GetImportModes]
    cases ezTextureAssetDocumentGenerator.GetTextureType env szPath <;> simp
  · simp only [AppendedModes, ezTextureAssetDocumentGenerator.GetImportModes]
    cases ezTextureAssetDocumentGenerator.GetTextureType env szPath <;> simp

/-- Witness of C24 for the sample helpers: `Wall_N.tga` is classified as
Normal and gets 7 entries, `sky.hdr` is classified as HDR. -/
theorem C24_import_modes_witness :
    (AppendedModes Sample.pathEnv "Wall_N.tga" []).length =
      (if ezTextureAssetDocumentGenerator.GetTextureType Sample.pathEnv "Wall_N.tga" =
            TextureType.HDR ∨
          ezTextureAssetDocumentGenerator.GetTextureType Sample.pathEnv "Wall_N.tga" =
            TextureType.Unknown
        then 8 else 7) ∧
    ezTextureAssetDocumentGenerator.GetTextureType Sample.pathEnv "sky.hdr" = TextureType.HDR :=
  ⟨(C24_import_modes Sample.pathEnv "Wall_N.tga" []).2.2.2.2.1,
   (C24_import_modes Sample.pathEnv "sky.hdr" []).2.2.2.2.2 (by decide)⟩
